import Mathlib

/-!
Verification of the SwiftTrack logistics core: a shallow embedding of the
saga orchestrator (`integration_service/app/services/saga.py`), the
integration-service message handler
(`integration_service/app/services/rabbitmq.py`), the shared event-bus
client (`shared/shared/rabbitmq.py`), the order store
(`order_service/app/services/order_service.py` and `models/order.py`),
the auto-assigner (`order_service/app/services/auto_assign.py`), the
status reactor (`order_service/app/services/rabbitmq.py`) and the driver
status endpoint (`order_service/app/routers/orders.py`).

External I/O (SOAP, TCP, REST calls and their outcomes) is modelled by an
environment record giving each call's outcome; the functions return, next
to their results, the trace of external calls they perform.
-/

namespace SwiftTrack

/-- Python truthiness of an `Optional[str]`: `None` and `""` are falsy. -/
def truthy : Option String → Bool
  | none => false
  | some s => !(s == "")

/-- Python `str.lower()` on ASCII strings (kernel-reducible charwise
map; `String.toLower` itself does not reduce in the kernel). -/
def strLower (s : String) : String := ⟨s.data.map Char.toLower⟩

/-! ## Saga orchestrator (`integration_service/app/services/saga.py`) -/

/-- `_STATUS_ORDER` — status progression; index determines how far the saga
has gone. -/
def statusOrder : List String :=
  ["PENDING", "CMS_REGISTERED", "WMS_RECEIVED", "ROUTE_OPTIMIZED", "READY"]

/-- The three saga step statuses, in execution order. -/
def sagaSteps : List String :=
  ["CMS_REGISTERED", "WMS_RECEIVED", "ROUTE_OPTIMIZED"]

/-- Index of a status in `_STATUS_ORDER` (`list.index`, `None` on
`ValueError`). -/
def statusIdx (s : String) : Option Nat :=
  statusOrder.findIdx? (· == s)

/-- `_step_already_done`: the order has already progressed past
`stepStatus`.  Unknown statuses (e.g. `FAILED`) return `false`. -/
def stepAlreadyDone (currentStatus : Option String) (stepStatus : String) : Bool :=
  match currentStatus with
  | none => false
  | some c =>
    match statusIdx c, statusIdx stepStatus with
    | some currentIdx, some stepIdx => decide (stepIdx ≤ currentIdx)
    | _, _ => false

/-- External calls the saga can make, in the order they appear in the
trace. -/
inductive ExtCall where
  | cmsRegister
  | wmsAdd
  | rosOptimize
  | cmsCancel
  | wmsCancel
deriving DecidableEq, Repr

/-- Outcomes of the external systems for one saga execution:
`fetchedStatus` is what `_fetch_order_status` returns (None when the order
cannot be found or the fetch errors), the rest give each client call's
result (`Except.error` models a raised exception). -/
structure SagaEnv where
  fetchedStatus : Option String
  cmsRegister : Except String String
  wmsAdd : Except String String
  rosOptimize : Except String (Option String)
  cmsCancel : Except String Unit
  wmsCancel : Except String Unit

/-- `SagaResult` dataclass. -/
structure SagaResult where
  success : Bool
  orderId : String
  cmsReference : Option String := none
  wmsReference : Option String := none
  routeId : Option String := none
  error : Option String := none
  completedSteps : List String := []
  skippedSteps : List String := []
deriving DecidableEq, Repr

/-- `_compensate_cms`: attempts `CancelOrder`; an exception from the
cancel call is caught and only logged, so the call is attempted (and
recorded in the trace) in both outcomes. -/
def compensateCms (env : SagaEnv) : List ExtCall :=
  match env.cmsCancel with
  | .ok _ => [ExtCall.cmsCancel]
  | .error _ => [ExtCall.cmsCancel]

/-- `_compensate_wms`: attempts `CANCEL_PACKAGE`; exceptions are caught
and logged. -/
def compensateWms (env : SagaEnv) : List ExtCall :=
  match env.wmsCancel with
  | .ok _ => [ExtCall.wmsCancel]
  | .error _ => [ExtCall.wmsCancel]

/-- Step 3 of `execute_order_saga` (ROS optimise), given the result and
trace accumulated by steps 1 and 2. -/
def sagaStep3 (env : SagaEnv) (r : SagaResult) (calls : List ExtCall) :
    SagaResult × List ExtCall :=
  if stepAlreadyDone env.fetchedStatus "ROUTE_OPTIMIZED" then
    ({ r with skippedSteps := r.skippedSteps ++ ["ROUTE_OPTIMIZED"],
              completedSteps := r.completedSteps ++ ["ROUTE_OPTIMIZED"],
              success := true }, calls)
  else
    match env.rosOptimize with
    | .ok rid =>
        ({ r with routeId := rid,
                  completedSteps := r.completedSteps ++ ["ROUTE_OPTIMIZED"],
                  success := true }, calls ++ [ExtCall.rosOptimize])
    | .error e =>
        ({ r with error := some ("ROS route optimisation failed: " ++ e) },
         calls ++ [ExtCall.rosOptimize] ++ compensateWms env ++ compensateCms env)

/-- Step 2 of `execute_order_saga` (WMS add package). -/
def sagaStep2 (env : SagaEnv) (r : SagaResult) (calls : List ExtCall) :
    SagaResult × List ExtCall :=
  if stepAlreadyDone env.fetchedStatus "WMS_RECEIVED" then
    sagaStep3 env
      { r with skippedSteps := r.skippedSteps ++ ["WMS_RECEIVED"],
               completedSteps := r.completedSteps ++ ["WMS_RECEIVED"] } calls
  else
    match env.wmsAdd with
    | .ok ref =>
        sagaStep3 env
          { r with wmsReference := some ref,
                   completedSteps := r.completedSteps ++ ["WMS_RECEIVED"] }
          (calls ++ [ExtCall.wmsAdd])
    | .error e =>
        ({ r with error := some ("WMS add package failed: " ++ e) },
         calls ++ [ExtCall.wmsAdd] ++ compensateCms env)

/-- `execute_order_saga`: the 3-step saga with idempotence probe and
compensating actions.  Returns the `SagaResult` and the trace of external
calls made. -/
def executeOrderSaga (env : SagaEnv) (orderId : String) :
    SagaResult × List ExtCall :=
  let r0 : SagaResult := { success := false, orderId := orderId }
  if stepAlreadyDone env.fetchedStatus "CMS_REGISTERED" then
    sagaStep2 env
      { r0 with skippedSteps := r0.skippedSteps ++ ["CMS_REGISTERED"],
                completedSteps := r0.completedSteps ++ ["CMS_REGISTERED"] } []
  else
    match env.cmsRegister with
    | .ok ref =>
        sagaStep2 env
          { r0 with cmsReference := some ref,
                    completedSteps := r0.completedSteps ++ ["CMS_REGISTERED"] }
          [ExtCall.cmsRegister]
    | .error e =>
        ({ r0 with error := some ("CMS registration failed: " ++ e) },
         [ExtCall.cmsRegister])

/-! ## Shared event-bus client (`shared/shared/rabbitmq.py`) -/

/-- One entry of the broker-maintained `x-death` header.  `count` is
absent when the dict lacks the key (`entry.get("count", 0)`). -/
structure XDeathEntry where
  queue : String
  count : Option Nat
deriving DecidableEq, Repr

/-- Headers of an incoming message, as far as the client reads them. -/
structure MessageHeaders where
  xDeath : Option (List XDeathEntry) := none
  correlationId : Option String := none
deriving DecidableEq, Repr

/-- An incoming broker message: headers, AMQP correlation-id property,
routing key, and the decoded JSON body (`Except.error` when
`json.loads` raises).  The body is modelled as a string-keyed
association list with opaque string values. -/
structure IncomingMessage where
  headers : MessageHeaders
  propCorrelationId : Option String := none
  routingKey : String
  body : Except String (List (String × String))
deriving Repr

/-- `_get_retry_count`: the count of the first `x-death` entry whose
`queue` equals the consumer's main queue, `0` when the header is missing
or no entry matches. -/
def getRetryCount (headers : MessageHeaders) (queueName : String) : Nat :=
  match headers.xDeath with
  | none => 0
  | some entries =>
    match entries.find? (fun e => e.queue == queueName) with
    | some e => e.count.getD 0
    | none => 0

/-- `_extract_correlation_id`: custom header → AMQP property → freshly
generated (`fresh` stands for the new uuid4). -/
def extractCorrelationId (headerCid propCid : Option String) (fresh : String) : String :=
  if truthy headerCid then headerCid.getD fresh
  else if truthy propCid then propCid.getD fresh
  else fresh

/-- `dict.setdefault(k, v)`: insert `(k, v)` only when `k` is absent. -/
def setdefault (body : List (String × String)) (k v : String) :
    List (String × String) :=
  if (body.find? (fun p => p.1 == k)).isSome then body else body ++ [(k, v)]

/-- What the plain `consume` dispatcher does with a message. -/
inductive ConsumeAction where
  | ack
  | requeue
deriving DecidableEq, Repr

/-- `_process` inside `consume`: runs under `message.process()` (which
acks on normal exit); decode errors and handler exceptions are caught
inside and only logged, so the scope always exits normally.  Returns the
action taken and the body passed to the handler (`none` when decoding
failed before the handler ran). -/
def consumeProcess (msg : IncomingMessage) (fresh : String)
    (handler : List (String × String) → Except String Unit) :
    ConsumeAction × Option (List (String × String)) :=
  let cid := extractCorrelationId msg.headers.correlationId msg.propCorrelationId fresh
  match msg.body with
  | .error _ => (ConsumeAction.ack, none)
  | .ok body =>
    let body := setdefault body "_correlation_id" cid
    match handler body with
    | .ok _ => (ConsumeAction.ack, some body)
    | .error _ => (ConsumeAction.ack, some body)

/-- What `_process_with_retry` does with a message. -/
inductive RetryAction where
  /-- handler succeeded: plain ack. -/
  | ack
  /-- max retries exceeded: ack on the main queue, republish to the
  `swifttrack.dlq` exchange with the original headers plus the three
  `x-…` headers. -/
  | ackAndDlq (exchange : String) (origHeaders : MessageHeaders)
      (xOriginalRoutingKey : String) (xRetryCount : Nat) (xService : String)
  /-- nack with `requeue=False`: dead-letters via `swifttrack.dlx` into
  the retry queue. -/
  | nackNoRequeue
deriving DecidableEq, Repr

/-- `_process_with_retry`: runs the handler (`outcome` is its result,
with decode errors folded in as errors); on failure consults the retry
count against `maxRetries`. -/
def processWithRetry (msg : IncomingMessage) (outcome : Except String Unit)
    (maxRetries : Nat) (queueName serviceName : String) : RetryAction :=
  let retryCount := getRetryCount msg.headers queueName
  match outcome with
  | .ok _ => RetryAction.ack
  | .error _ =>
    if decide (maxRetries ≤ retryCount) then
      RetryAction.ackAndDlq "swifttrack.dlq" msg.headers
        msg.routingKey retryCount serviceName
    else
      RetryAction.nackNoRequeue

/-- The queue/exchange topology `consume_with_retry` declares. -/
structure RetryTopology where
  mainQueueName : String
  mainQueueDeadLetterExchange : String
  mainQueueBindings : List (String × String)
  retryQueueName : String
  retryQueueTtl : Nat
  retryQueueDeadLetterExchange : String
  retryQueueBindings : List (String × String)
  dlqExchange : String
  dlqQueueName : String
deriving DecidableEq, Repr

/-- Topology declared by `consume_with_retry(queue_name, routing_keys,
…, retry_ttl)`: bindings are (exchange, routing key) pairs. -/
def consumeWithRetryTopology (queueName : String) (routingKeys : List String)
    (retryTtl : Nat) : RetryTopology :=
  { mainQueueName := queueName
    mainQueueDeadLetterExchange := "swifttrack.dlx"
    mainQueueBindings := routingKeys.map (fun k => ("swifttrack.events", k))
    retryQueueName := queueName ++ ".retry"
    retryQueueTtl := retryTtl
    retryQueueDeadLetterExchange := "swifttrack.events"
    retryQueueBindings := routingKeys.map (fun k => ("swifttrack.dlx", k))
    dlqExchange := "swifttrack.dlq"
    dlqQueueName := queueName ++ ".dlq" }

/-! ## Integration-service handler
(`integration_service/app/services/rabbitmq.py`) -/

/-- An event published to the topic exchange.  The JSON body's optional
keys are modelled as optional fields. -/
structure PublishedEvent where
  routingKey : String
  event : String
  orderId : String
  cmsReference : Option String := none
  wmsReference : Option String := none
  routeId : Option String := none
  error : Option String := none
  completedSteps : Option (List String) := none
  correlationId : Option String := none
deriving DecidableEq, Repr

/-- Decoded `order.created` body as `_handle_order_created` reads it. -/
structure OrderCreatedBody where
  orderId : Option String := none
  correlationId : Option String := none
  clientId : Option String := none
  pickupAddress : Option String := none
  deliveryAddress : Option String := none
deriving DecidableEq, Repr

/-- The per-step event the handler publishes: key
`order.{step.lower()}`, enriched with the matching reference when the
saga result carries a truthy one. -/
def stepEvent (orderId : String) (cid : Option String) (res : SagaResult)
    (step : String) : PublishedEvent :=
  let base : PublishedEvent :=
    { routingKey := "order." ++ strLower step
      event := "order." ++ strLower step
      orderId := orderId
      correlationId := cid }
  if step == "CMS_REGISTERED" && truthy res.cmsReference then
    { base with cmsReference := res.cmsReference }
  else if step == "WMS_RECEIVED" && truthy res.wmsReference then
    { base with wmsReference := res.wmsReference }
  else if step == "ROUTE_OPTIMIZED" && truthy res.routeId then
    { base with routeId := res.routeId }
  else base

/-- The `order.saga_failed` event published when the saga reports
failure. -/
def sagaFailedEvent (orderId : String) (cid : Option String)
    (res : SagaResult) : PublishedEvent :=
  { routingKey := "order.saga_failed"
    event := "order.saga_failed"
    orderId := orderId
    error := res.error
    completedSteps := some res.completedSteps
    correlationId := cid }

/-- `_handle_order_created`: runs the saga, publishes one event per
completed step, then `order.saga_failed` when the saga failed.  The
return type is `Except` to record whether the handler raises: it never
does — saga step failures are already converted into a failed
`SagaResult`, and the handler returns normally after publishing. -/
def handleOrderCreated (env : SagaEnv) (body : OrderCreatedBody) :
    Except String (List PublishedEvent) :=
  let orderId := body.orderId.getD "unknown"
  let res := (executeOrderSaga env orderId).1
  let events := res.completedSteps.map (stepEvent orderId body.correlationId res)
  if res.success then
    Except.ok events
  else
    Except.ok (events ++ [sagaFailedEvent orderId body.correlationId res])

/-- Registration parameters of the integration-service consumer
(`init` in `integration_service/app/services/rabbitmq.py`). -/
structure RetryConsumerConfig where
  queueName : String
  routingKeys : List String
  maxRetries : Nat
  retryTtl : Nat
deriving DecidableEq, Repr

/-- The consumer the integration service registers for `order.created`. -/
def integrationOrderCreatedConsumer : RetryConsumerConfig :=
  { queueName := "integration_service.order_created"
    routingKeys := ["order.created"]
    maxRetries := 3
    retryTtl := 30000 }

/-! ## Order store (`order_service/app/models/order.py`,
`order_service/app/services/order_service.py`)

Order ids (uuid4 in the source) are modelled as naturals drawn from a
fresh-id counter in the store, which captures their uniqueness.  The
source enum has `DELIVERY_FAILED` as a duplicate of the wire value
`FAILED`; in Python a duplicate enum value is an alias of the first
member, so a single `FAILED` tag is the faithful embedding. -/

inductive OrderStatus where
  | PENDING
  | CMS_REGISTERED
  | WMS_RECEIVED
  | ROUTE_OPTIMIZED
  | READY
  | PICKUP_ASSIGNED
  | PICKING_UP
  | PICKED_UP
  | AT_WAREHOUSE
  | OUT_FOR_DELIVERY
  | DELIVERY_ATTEMPTED
  | DELIVERED
  | FAILED
  | CANCELLED
deriving DecidableEq, Repr

/-- Wire value of a status (`OrderStatus.value`). -/
def OrderStatus.toWire : OrderStatus → String
  | .PENDING => "PENDING"
  | .CMS_REGISTERED => "CMS_REGISTERED"
  | .WMS_RECEIVED => "WMS_RECEIVED"
  | .ROUTE_OPTIMIZED => "ROUTE_OPTIMIZED"
  | .READY => "READY"
  | .PICKUP_ASSIGNED => "PICKUP_ASSIGNED"
  | .PICKING_UP => "PICKING_UP"
  | .PICKED_UP => "PICKED_UP"
  | .AT_WAREHOUSE => "AT_WAREHOUSE"
  | .OUT_FOR_DELIVERY => "OUT_FOR_DELIVERY"
  | .DELIVERY_ATTEMPTED => "DELIVERY_ATTEMPTED"
  | .DELIVERED => "DELIVERED"
  | .FAILED => "FAILED"
  | .CANCELLED => "CANCELLED"

/-- `OrderStatus(s)` — the enum constructor, `none` on `ValueError`. -/
def OrderStatus.ofWire (s : String) : Option OrderStatus :=
  if s == "PENDING" then some .PENDING
  else if s == "CMS_REGISTERED" then some .CMS_REGISTERED
  else if s == "WMS_RECEIVED" then some .WMS_RECEIVED
  else if s == "ROUTE_OPTIMIZED" then some .ROUTE_OPTIMIZED
  else if s == "READY" then some .READY
  else if s == "PICKUP_ASSIGNED" then some .PICKUP_ASSIGNED
  else if s == "PICKING_UP" then some .PICKING_UP
  else if s == "PICKED_UP" then some .PICKED_UP
  else if s == "AT_WAREHOUSE" then some .AT_WAREHOUSE
  else if s == "OUT_FOR_DELIVERY" then some .OUT_FOR_DELIVERY
  else if s == "DELIVERY_ATTEMPTED" then some .DELIVERY_ATTEMPTED
  else if s == "DELIVERED" then some .DELIVERED
  else if s == "FAILED" then some .FAILED
  else if s == "CANCELLED" then some .CANCELLED
  else none

/-- The `orders` row.  `package_details` and `proof_of_delivery` are
opaque JSON documents, modelled as opaque strings. -/
structure Order where
  id : Nat
  clientId : String
  status : OrderStatus
  pickupAddress : String := ""
  deliveryAddress : String := ""
  packageDetails : String := ""
  cmsReference : Option String := none
  wmsReference : Option String := none
  routeId : Option String := none
  pickupDriverId : Option String := none
  deliveryDriverId : Option String := none
  deliveryNotes : Option String := none
  proofOfDelivery : Option String := none
  deliveryAttempts : Nat := 0
  maxDeliveryAttempts : Nat := 3
deriving DecidableEq, Repr

/-- An `order_status_history` row.  The list position in `DB.history`
stands for `created_at` order (entries are only ever appended). -/
structure HistoryEntry where
  orderId : Nat
  oldStatus : Option OrderStatus
  newStatus : OrderStatus
  details : Option String := none
deriving DecidableEq, Repr

/-- The `extra_fields` dict passed to `update_order_status`; only the
keys its callers actually use (each is an existing attribute, so the
`hasattr` guard always passes). -/
structure ExtraFields where
  cmsReference : Option String := none
  wmsReference : Option String := none
  routeId : Option String := none
  pickupDriverId : Option String := none
  deliveryDriverId : Option String := none
  deliveryNotes : Option String := none
  proofOfDelivery : Option String := none
  deliveryAttempts : Option Nat := none
deriving DecidableEq, Repr

/-- `setattr(order, key, value)` for every key present in the dict;
absent keys leave the attribute unchanged. -/
def applyExtraFields (o : Order) (ef : ExtraFields) : Order :=
  { o with
    cmsReference := match ef.cmsReference with
      | some v => some v | none => o.cmsReference
    wmsReference := match ef.wmsReference with
      | some v => some v | none => o.wmsReference
    routeId := match ef.routeId with
      | some v => some v | none => o.routeId
    pickupDriverId := match ef.pickupDriverId with
      | some v => some v | none => o.pickupDriverId
    deliveryDriverId := match ef.deliveryDriverId with
      | some v => some v | none => o.deliveryDriverId
    deliveryNotes := match ef.deliveryNotes with
      | some v => some v | none => o.deliveryNotes
    proofOfDelivery := match ef.proofOfDelivery with
      | some v => some v | none => o.proofOfDelivery
    deliveryAttempts := match ef.deliveryAttempts with
      | some v => v | none => o.deliveryAttempts }

/-- The authoritative store: orders table, append-only history, and the
fresh-id counter standing for uuid4 uniqueness. -/
structure DB where
  orders : List Order := []
  history : List HistoryEntry := []
  nextId : Nat := 0
deriving DecidableEq, Repr

/-- `select(Order).where(Order.id == order_id)` — first row by id. -/
def findOrder (db : DB) (orderId : Nat) : Option Order :=
  db.orders.find? (fun o => o.id == orderId)

/-- History entries of one order, in `created_at` order. -/
def historyOf (db : DB) (orderId : Nat) : List HistoryEntry :=
  db.history.filter (fun e => e.orderId == orderId)

/-- `create_order`: insert a PENDING order plus its
`(null → PENDING)` history entry. -/
def createOrder (db : DB) (clientId pickupAddress deliveryAddress packageDetails : String) :
    Order × DB :=
  let order : Order :=
    { id := db.nextId
      clientId := clientId
      status := OrderStatus.PENDING
      pickupAddress := pickupAddress
      deliveryAddress := deliveryAddress
      packageDetails := packageDetails }
  let entry : HistoryEntry :=
    { orderId := order.id
      oldStatus := none
      newStatus := OrderStatus.PENDING
      details := some "Order created" }
  (order, { orders := db.orders ++ [order]
            history := db.history ++ [entry]
            nextId := db.nextId + 1 })

/-- `update_order_status` (service layer): look the order up, write the
new status plus the extra fields, append exactly one history entry
recording `old_status → new_status`, all in one transaction.  Returns
`none` (and leaves the store untouched) when the order does not exist. -/
def updateOrderStatus (db : DB) (orderId : Nat) (newStatus : OrderStatus)
    (details : Option String) (extraFields : ExtraFields) :
    Option Order × DB :=
  match findOrder db orderId with
  | none => (none, db)
  | some order =>
    let oldStatus := order.status
    let updated := applyExtraFields { order with status := newStatus } extraFields
    let entry : HistoryEntry :=
      { orderId := orderId
        oldStatus := some oldStatus
        newStatus := newStatus
        details := details }
    (some updated,
     { db with
       orders := db.orders.map (fun o => if o.id == orderId then updated else o)
       history := db.history ++ [entry] })

/-! ## Auto-assigner (`order_service/app/services/auto_assign.py`) -/

/-- `get_drivers_list`: split the configured roster string on commas,
strip whitespace, drop empties. -/
def getDriversList (driverUsernames : String) : List String :=
  ((driverUsernames.splitOn ",").map String.trim).filter (fun d => !(d == ""))

/-- Active statuses counted for the pickup phase. -/
def pickupActiveStatuses : List OrderStatus :=
  [.PICKUP_ASSIGNED, .PICKING_UP, .PICKED_UP]

/-- Active statuses counted for the delivery phase. -/
def deliveryActiveStatuses : List OrderStatus :=
  [.OUT_FOR_DELIVERY, .DELIVERY_ATTEMPTED]

/-- The per-driver group-by count for a phase.  Drivers with no matching
rows get 0 (`driver_counts` is pre-seeded with 0). -/
def driverLoad (orders : List Order) (driverType : String) (d : String) : Nat :=
  if driverType == "pickup" then
    (orders.filter (fun o =>
      pickupActiveStatuses.contains o.status && o.pickupDriverId == some d)).length
  else
    (orders.filter (fun o =>
      deliveryActiveStatuses.contains o.status && o.deliveryDriverId == some d)).length

/-- `min(driver_counts.items(), key=…)`: the first driver in roster order
attaining the minimum load (Python's `min` keeps the first minimum, and
a dict built from the roster preserves first-occurrence order). -/
def selectDriver (load : String → Nat) : List String → Option String
  | [] => none
  | d :: rest =>
    some (rest.foldl (fun best x => if load x < load best then x else best) d)

/-- `assign_driver`: no-op on an empty roster, otherwise writes the
min-load driver of the phase to the phase's field on the order. -/
def assignDriver (orders : List Order) (roster : List String) (order : Order)
    (driverType : String) : Order :=
  match selectDriver (driverLoad orders driverType) roster with
  | none => order
  | some d =>
    if driverType == "pickup" then { order with pickupDriverId := some d }
    else { order with deliveryDriverId := some d }

/-! ## Status reactor (`order_service/app/services/rabbitmq.py`) -/

/-- A `notification.status_changed` event published by
`publish_order_status`. -/
structure Notification where
  orderId : Nat
  status : String
  details : Option String := none
  correlationId : Option String := none
deriving DecidableEq, Repr

/-- Decoded body of a status-update event as `_handle_status_update`
reads it.  Present keys are `some`. -/
structure StatusUpdateBody where
  event : String
  orderId : Option Nat := none
  cmsReference : Option String := none
  wmsReference : Option String := none
  routeId : Option String := none
  details : Option String := none
  correlationId : Option String := none
deriving DecidableEq, Repr

/-- The reactor's `status_map`: target status and the name of the
reference key stored from the body. -/
def reactorStatusMap (event : String) : Option (OrderStatus × Option String) :=
  if event == "order.cms_registered" then some (.CMS_REGISTERED, some "cms_reference")
  else if event == "order.wms_received" then some (.WMS_RECEIVED, some "wms_reference")
  else if event == "order.route_optimized" then some (.ROUTE_OPTIMIZED, some "route_id")
  else if event == "order.saga_failed" then some (.FAILED, none)
  else none

/-- `extra_fields[ref_field] = body[ref_field]` when the key is present
in the body (absent keys store nothing). -/
def reactorExtraFields (refField : Option String) (body : StatusUpdateBody) :
    ExtraFields :=
  match refField with
  | some "cms_reference" => { cmsReference := body.cmsReference }
  | some "wms_reference" => { wmsReference := body.wmsReference }
  | some "route_id" => { routeId := body.routeId }
  | _ => {}

/-- `_handle_status_update`: transition the order per the status map
(`order.route_optimized` is rewritten to `READY`), publish
`notification.status_changed`, and after a READY transition run the
pickup auto-assigner; when it selected a driver, transition again to
`PICKUP_ASSIGNED` and publish a second notification.  Returns the new
store and the notifications published. -/
def handleStatusUpdate (db : DB) (roster : List String)
    (body : StatusUpdateBody) : DB × List Notification :=
  match body.orderId with
  | none => (db, [])
  | some orderId =>
    match reactorStatusMap body.event with
    | none => (db, [])
    | some (mappedStatus, refField) =>
      let isReady := body.event == "order.route_optimized"
      let newStatus := if isReady then OrderStatus.READY else mappedStatus
      let extra := reactorExtraFields refField body
      let extra := if isReady then { extra with routeId := body.routeId } else extra
      let details := some (body.details.getD ("Updated via " ++ body.event))
      let (found, db1) := updateOrderStatus db orderId newStatus details extra
      match found with
      | none => (db1, [])
      | some order =>
        let n1 : Notification :=
          { orderId := orderId
            status := newStatus.toWire
            correlationId := body.correlationId }
        if isReady then
          let assigned := assignDriver db1.orders roster order "pickup"
          if truthy assigned.pickupDriverId then
            let (_, db2) := updateOrderStatus db1 orderId
              OrderStatus.PICKUP_ASSIGNED
              (some "System auto-assigned pickup driver")
              { pickupDriverId := assigned.pickupDriverId }
            let n2 : Notification :=
              { orderId := orderId
                status := "PICKUP_ASSIGNED"
                correlationId := body.correlationId }
            (db2, [n1, n2])
          else (db1, [n1])
        else (db1, [n1])

/-! ## Driver status endpoint (`order_service/app/routers/orders.py`,
`PATCH /api/orders/{order_id}/status`) -/

/-- `OrderStatusUpdate` request schema. -/
structure OrderStatusUpdatePayload where
  status : String
  pickupDriverId : Option String := none
  deliveryDriverId : Option String := none
  deliveryNotes : Option String := none
  proofOfDelivery : Option String := none
deriving DecidableEq, Repr

/-- Statuses a driver may PATCH to. -/
def allowedDriverStatuses : List String :=
  ["PICKING_UP", "PICKED_UP", "AT_WAREHOUSE",
   "OUT_FOR_DELIVERY", "DELIVERY_ATTEMPTED", "DELIVERED", "FAILED"]

/-- `update_order_status` (router): validate the requested status, look
the order up, build `extra_fields` from the truthy payload fields, apply
the `AT_WAREHOUSE` delivery auto-assignment or the `DELIVERY_ATTEMPTED`
attempt-counter escalation, run the store transition, publish one
`notification.status_changed` with the (possibly rewritten) target
status.  The error branch carries the HTTP status code. -/
def updateOrderStatusEndpoint (db : DB) (roster : List String) (orderId : Nat)
    (payload : OrderStatusUpdatePayload) :
    Except Nat Order × DB × List Notification :=
  if !(allowedDriverStatuses.contains payload.status) then
    (Except.error 400, db, [])
  else
    match findOrder db orderId with
    | none => (Except.error 404, db, [])
    | some order =>
      let ef : ExtraFields :=
        { deliveryNotes :=
            if truthy payload.deliveryNotes then payload.deliveryNotes else none
          proofOfDelivery :=
            if truthy payload.proofOfDelivery then payload.proofOfDelivery else none
          pickupDriverId :=
            if truthy payload.pickupDriverId then payload.pickupDriverId else none
          deliveryDriverId :=
            if truthy payload.deliveryDriverId then payload.deliveryDriverId else none }
      let (targetStatus, ef) :=
        if payload.status == "AT_WAREHOUSE" then
          let assigned := assignDriver db.orders roster order "delivery"
          let ef :=
            if truthy assigned.deliveryDriverId then
              { ef with deliveryDriverId := assigned.deliveryDriverId }
            else ef
          (payload.status, ef)
        else if payload.status == "DELIVERY_ATTEMPTED" then
          let newAttempts := order.deliveryAttempts + 1
          let ef := { ef with deliveryAttempts := some newAttempts }
          if newAttempts < order.maxDeliveryAttempts then (payload.status, ef)
          else ("FAILED", ef)
        else (payload.status, ef)
      match OrderStatus.ofWire targetStatus with
      | none => (Except.error 500, db, [])
      | some st =>
        let (updated, db1) := updateOrderStatus db orderId st
          (some ("Driver update: " ++ payload.status)) ef
        match updated with
        | none => (Except.error 404, db1, [])
        | some o =>
          (Except.ok o, db1,
           [{ orderId := orderId, status := targetStatus }])

/-! ## Store operation traces (for the history-chain invariant) -/

/-- One mutation of the order store, as performed by its two write
operations. -/
inductive StoreOp where
  | create (clientId pickupAddress deliveryAddress packageDetails : String)
  | transition (orderId : Nat) (newStatus : OrderStatus)
      (details : Option String) (extraFields : ExtraFields)
deriving Repr

/-- Apply one operation to the store. -/
def applyOp (db : DB) : StoreOp → DB
  | .create c p d pd => (createOrder db c p d pd).2
  | .transition oid st details ef => (updateOrderStatus db oid st details ef).2

/-- Run a list of operations from the empty store. -/
def runOps (ops : List StoreOp) : DB :=
  ops.foldl applyOp {}

/-- Consecutive history entries link up: the later entry's `old_status`
is the earlier entry's `new_status`. -/
def isChain : List HistoryEntry → Bool
  | [] => true
  | [_] => true
  | e :: e' :: rest => (e'.oldStatus == some e.newStatus) && isChain (e' :: rest)

/-! ## Concrete fixtures used by witnesses and counterexamples -/

/-- Probe returns `FAILED` (outside the prefix list) and CMS errors. -/
def envProbeFailedCmsDown : SagaEnv :=
  { fetchedStatus := some "FAILED", cmsRegister := .error "boom",
    wmsAdd := .ok "W1", rosOptimize := .ok (some "R1"),
    cmsCancel := .ok (), wmsCancel := .ok () }

/-- CMS succeeds, WMS errors, and the CMS compensation itself errors. -/
def envWmsDown : SagaEnv :=
  { fetchedStatus := none, cmsRegister := .ok "C1",
    wmsAdd := .error "sock", rosOptimize := .ok (some "R1"),
    cmsCancel := .error "cancel down", wmsCancel := .ok () }

/-- CMS errors with the probe finding nothing. -/
def envCmsDown : SagaEnv :=
  { fetchedStatus := none, cmsRegister := .error "503",
    wmsAdd := .ok "W1", rosOptimize := .ok (some "R1"),
    cmsCancel := .ok (), wmsCancel := .ok () }

/-- Order already `CMS_REGISTERED`: step 1 is skipped, the rest run. -/
def envCmsSkipped : SagaEnv :=
  { fetchedStatus := some "CMS_REGISTERED", cmsRegister := .error "unused",
    wmsAdd := .ok "W1", rosOptimize := .ok (some "R1"),
    cmsCancel := .ok (), wmsCancel := .ok () }

/-- Store invariant maintained by the two write operations: ids are
below the fresh-id counter and pairwise distinct, every history entry
belongs to a stored order, and each stored order's history starts with
the creation entry `(null, PENDING)`, links up pairwise, and ends at the
order's current status. -/
def storeInv (db : DB) : Prop :=
  (∀ o ∈ db.orders, o.id < db.nextId) ∧
  (db.orders.map (fun o => o.id)).Nodup ∧
  (∀ e ∈ db.history, ∃ o ∈ db.orders, o.id = e.orderId) ∧
  (∀ o ∈ db.orders, ∃ e0 rest, historyOf db o.id = e0 :: rest ∧
    e0.oldStatus = none ∧ e0.newStatus = OrderStatus.PENDING ∧
    isChain (historyOf db o.id) = true ∧
    (historyOf db o.id).getLast?.map (fun e => e.newStatus) = some o.status)

/-- An order out for delivery with two failed attempts recorded. -/
def attemptOrder : Order :=
  { id := 0, clientId := "c", status := .OUT_FOR_DELIVERY,
    deliveryDriverId := some "d1", deliveryAttempts := 2,
    maxDeliveryAttempts := 3 }

/-- Store holding `attemptOrder`. -/
def attemptFixture : DB :=
  { orders := [attemptOrder],
    history := [{ orderId := 0, oldStatus := none, newStatus := .PENDING }],
    nextId := 1 }

/-- A freshly created order (store side). -/
def reactorFixture : DB := (createOrder {} "client1" "P" "D" "w").2

/-- A freshly created order (returned row). -/
def reactorOrder : Order := (createOrder {} "client1" "P" "D" "w").1

/-- An `order.route_optimized` event body for the fresh order. -/
def reactorBody : StatusUpdateBody :=
  { event := "order.route_optimized", orderId := some 0,
    routeId := some "RT-1", correlationId := some "cc" }

/-- The external call a saga step makes. -/
def stepCall (s : String) : ExtCall :=
  if s == "CMS_REGISTERED" then ExtCall.cmsRegister
  else if s == "WMS_RECEIVED" then ExtCall.wmsAdd
  else ExtCall.rosOptimize

/-- The events the handler publishes for `envCmsSkipped`. -/
def skippedCmsEvents : List PublishedEvent :=
  [{ routingKey := "order.cms_registered", event := "order.cms_registered",
     orderId := "O5" },
   { routingKey := "order.wms_received", event := "order.wms_received",
     orderId := "O5", wmsReference := some "W1" },
   { routingKey := "order.route_optimized", event := "order.route_optimized",
     orderId := "O5", routeId := some "R1" }]

/-- Fixture orders: two active pickups for `d1`, none for `d2`, `d3`. -/
def loadFixture : List Order :=
  [{ id := 0, clientId := "c", status := .PICKUP_ASSIGNED,
     pickupDriverId := some "d1" },
   { id := 1, clientId := "c", status := .PICKING_UP,
     pickupDriverId := some "d1" },
   { id := 2, clientId := "c", status := .READY,
     pickupDriverId := some "d2" }]

/-- A three-operation store trace: create, then two saga transitions. -/
def chainOps : List StoreOp :=
  [StoreOp.create "client1" "P" "D" "w",
   StoreOp.transition 0 OrderStatus.CMS_REGISTERED none
     { cmsReference := some "C-1" },
   StoreOp.transition 0 OrderStatus.WMS_RECEIVED none
     { wmsReference := some "W-1" }]

/-- The order stored after `chainOps`. -/
def chainOrder : Order :=
  { id := 0, clientId := "client1", status := .WMS_RECEIVED,
    pickupAddress := "P", deliveryAddress := "D", packageDetails := "w",
    cmsReference := some "C-1", wmsReference := some "W-1" }

/-! ## Theorems -/

theorem compensateCms_eq (env : SagaEnv) :
    compensateCms env = [ExtCall.cmsCancel] := by
  unfold compensateCms
  cases env.cmsCancel <;> rfl

theorem compensateWms_eq (env : SagaEnv) :
    compensateWms env = [ExtCall.wmsCancel] := by
  unfold compensateWms
  cases env.wmsCancel <;> rfl

theorem sagaStep3_cancelFree (env : SagaEnv) (r : SagaResult)
    (calls : List ExtCall) (c1 : Except String Unit) (c2 : Except String Unit) :
    sagaStep3 { env with cmsCancel := c1, wmsCancel := c2 } r calls =
      sagaStep3 env r calls := by
  unfold sagaStep3
  simp only [compensateCms_eq, compensateWms_eq]

theorem sagaStep2_cancelFree (env : SagaEnv) (r : SagaResult)
    (calls : List ExtCall) (c1 : Except String Unit) (c2 : Except String Unit) :
    sagaStep2 { env with cmsCancel := c1, wmsCancel := c2 } r calls =
      sagaStep2 env r calls := by
  unfold sagaStep2
  simp only [compensateCms_eq, compensateWms_eq, sagaStep3_cancelFree]

/-- C2: failure and compensation behaviour of the saga.
Part 1: a step-1 (CMS register) failure returns `success=false` with the
error recorded and performs no compensation (the trace is the single CMS
call).  Part 2: a step-2 (WMS add) failure issues exactly one
compensation, a CMS `CancelOrder`, and no WMS `CANCEL_PACKAGE`.
Part 3: a step-3 (ROS optimise) failure compensates in reverse order —
WMS `CANCEL_PACKAGE` then CMS `CancelOrder` — each exactly once, at the
end of the trace.  Part 4: exceptions inside compensations are caught:
the result and trace do not depend on the cancel-call outcomes, so the
returned result still carries the original step's error. -/
theorem saga_failure_compensation (env : SagaEnv) (oid : String) :
    (∀ e, stepAlreadyDone env.fetchedStatus "CMS_REGISTERED" = false →
      env.cmsRegister = Except.error e →
      (executeOrderSaga env oid).1.success = false ∧
      (executeOrderSaga env oid).1.error =
        some ("CMS registration failed: " ++ e) ∧
      (executeOrderSaga env oid).2 = [ExtCall.cmsRegister]) ∧
    (∀ e, (stepAlreadyDone env.fetchedStatus "CMS_REGISTERED" = true ∨
           env.cmsRegister.isOk = true) →
      stepAlreadyDone env.fetchedStatus "WMS_RECEIVED" = false →
      env.wmsAdd = Except.error e →
      (executeOrderSaga env oid).1.success = false ∧
      (executeOrderSaga env oid).1.error =
        some ("WMS add package failed: " ++ e) ∧
      (executeOrderSaga env oid).2.count ExtCall.cmsCancel = 1 ∧
      ExtCall.wmsCancel ∉ (executeOrderSaga env oid).2) ∧
    (∀ e, (stepAlreadyDone env.fetchedStatus "CMS_REGISTERED" = true ∨
           env.cmsRegister.isOk = true) →
      (stepAlreadyDone env.fetchedStatus "WMS_RECEIVED" = true ∨
           env.wmsAdd.isOk = true) →
      stepAlreadyDone env.fetchedStatus "ROUTE_OPTIMIZED" = false →
      env.rosOptimize = Except.error e →
      (executeOrderSaga env oid).1.success = false ∧
      (executeOrderSaga env oid).1.error =
        some ("ROS route optimisation failed: " ++ e) ∧
      ∃ pre, (executeOrderSaga env oid).2 =
          pre ++ [ExtCall.wmsCancel, ExtCall.cmsCancel] ∧
        ExtCall.wmsCancel ∉ pre ∧ ExtCall.cmsCancel ∉ pre) ∧
    (∀ c1 c2, executeOrderSaga { env with cmsCancel := c1, wmsCancel := c2 } oid =
      executeOrderSaga env oid) := by
  refine ⟨?step1, ?step2, ?step3, ?cancels⟩
  case step1 =>
    intro e h1 hcms
    simp [executeOrderSaga, h1, hcms]
  case step2 =>
    intro e h1 h2 hwms
    rcases h1 with h1 | h1
    · simp [executeOrderSaga, sagaStep2, h1, h2, hwms, compensateCms_eq]
    · cases hcms : env.cmsRegister with
      | error err => rw [hcms] at h1; simp [Except.isOk, Except.toBool] at h1
      | ok ref =>
        cases hskip1 : stepAlreadyDone env.fetchedStatus "CMS_REGISTERED" with
        | true =>
          simp [executeOrderSaga, sagaStep2, hskip1, h2, hwms, compensateCms_eq]
        | false =>
          simp [executeOrderSaga, sagaStep2, hskip1, hcms, h2, hwms,
            compensateCms_eq]
  case step3 =>
    intro e h1 h2 h3 hros
    have main : (executeOrderSaga env oid).1.success = false ∧
        (executeOrderSaga env oid).1.error =
          some ("ROS route optimisation failed: " ++ e) ∧
        ∃ pre, (executeOrderSaga env oid).2 =
            pre ++ [ExtCall.wmsCancel, ExtCall.cmsCancel] ∧
          ExtCall.wmsCancel ∉ pre ∧ ExtCall.cmsCancel ∉ pre := by
      rcases h1 with h1 | h1
      · rcases h2 with h2 | h2
        · refine ?_
          simp only [executeOrderSaga, h1, if_pos rfl, sagaStep2, h2,
            sagaStep3, h3, hros, compensateCms_eq, compensateWms_eq]
          exact ⟨by trivial, by trivial, [ExtCall.rosOptimize], by simp, by decide, by decide⟩
        · cases hwms : env.wmsAdd with
          | error err => rw [hwms] at h2; simp [Except.isOk, Except.toBool] at h2
          | ok ref =>
            cases hskip2 : stepAlreadyDone env.fetchedStatus "WMS_RECEIVED" with
            | true =>
              simp only [executeOrderSaga, h1, if_pos rfl, sagaStep2, hskip2,
                sagaStep3, h3, hros, compensateCms_eq, compensateWms_eq]
              exact ⟨by trivial, by trivial, [ExtCall.rosOptimize], by simp, by decide, by decide⟩
            | false =>
              simp only [executeOrderSaga, h1, if_pos rfl, sagaStep2, hskip2,
                hwms, sagaStep3, h3, hros, compensateCms_eq, compensateWms_eq]
              exact ⟨by trivial, by trivial, [ExtCall.wmsAdd, ExtCall.rosOptimize], by simp,
                by decide, by decide⟩
      · cases hcms : env.cmsRegister with
        | error err => rw [hcms] at h1; simp [Except.isOk, Except.toBool] at h1
        | ok cref =>
          cases hskip1 : stepAlreadyDone env.fetchedStatus "CMS_REGISTERED" with
          | true =>
            rcases h2 with h2 | h2
            · simp only [executeOrderSaga, hskip1, if_pos rfl, sagaStep2, h2,
                sagaStep3, h3, hros, compensateCms_eq, compensateWms_eq]
              exact ⟨by trivial, by trivial, [ExtCall.rosOptimize], by simp, by decide, by decide⟩
            · cases hwms : env.wmsAdd with
              | error err => rw [hwms] at h2; simp [Except.isOk, Except.toBool] at h2
              | ok ref =>
                cases hskip2 : stepAlreadyDone env.fetchedStatus "WMS_RECEIVED" with
                | true =>
                  simp only [executeOrderSaga, hskip1, if_pos rfl, sagaStep2,
                    hskip2, sagaStep3, h3, hros, compensateCms_eq, compensateWms_eq]
                  exact ⟨by trivial, by trivial, [ExtCall.rosOptimize], by simp, by decide,
                    by decide⟩
                | false =>
                  simp only [executeOrderSaga, hskip1, if_pos rfl, sagaStep2,
                    hskip2, hwms, sagaStep3, h3, hros, compensateCms_eq,
                    compensateWms_eq]
                  exact ⟨by trivial, by trivial, [ExtCall.wmsAdd, ExtCall.rosOptimize],
                    by simp, by decide, by decide⟩
          | false =>
            rcases h2 with h2 | h2
            · simp only [executeOrderSaga, hskip1, Bool.false_eq_true,
                if_neg, hcms, sagaStep2, h2, sagaStep3, h3, hros,
                compensateCms_eq, compensateWms_eq, reduceCtorEq,
                not_false_eq_true]
              exact ⟨by trivial, by trivial, [ExtCall.cmsRegister, ExtCall.rosOptimize],
                by simp, by decide, by decide⟩
            · cases hwms : env.wmsAdd with
              | error err => rw [hwms] at h2; simp [Except.isOk, Except.toBool] at h2
              | ok ref =>
                cases hskip2 : stepAlreadyDone env.fetchedStatus "WMS_RECEIVED" with
                | true =>
                  simp only [executeOrderSaga, hskip1, Bool.false_eq_true,
                    if_neg, hcms, sagaStep2, hskip2, sagaStep3, h3, hros,
                    compensateCms_eq, compensateWms_eq, reduceCtorEq,
                    not_false_eq_true]
                  exact ⟨by trivial, by trivial, [ExtCall.cmsRegister, ExtCall.rosOptimize],
                    by simp, by decide, by decide⟩
                | false =>
                  simp only [executeOrderSaga, hskip1, Bool.false_eq_true,
                    if_neg, hcms, sagaStep2, hskip2, hwms, sagaStep3, h3, hros,
                    compensateCms_eq, compensateWms_eq, reduceCtorEq,
                    not_false_eq_true]
                  exact ⟨by trivial, by trivial,
                    [ExtCall.cmsRegister, ExtCall.wmsAdd, ExtCall.rosOptimize],
                    by simp, by decide, by decide⟩
    exact main
  case cancels =>
    intro c1 c2
    unfold executeOrderSaga
    simp only [sagaStep2_cancelFree]

/-- C2 witness: a concrete WMS failure with a failing CMS compensation
still reports the WMS error and compensates CMS exactly once. -/
theorem saga_failure_compensation_witness :
    (executeOrderSaga envWmsDown "O1").1.success = false ∧
    (executeOrderSaga envWmsDown "O1").1.error =
      some ("WMS add package failed: " ++ "sock") ∧
    (executeOrderSaga envWmsDown "O1").2.count ExtCall.cmsCancel = 1 ∧
    ExtCall.wmsCancel ∉ (executeOrderSaga envWmsDown "O1").2 :=
  (saga_failure_compensation envWmsDown "O1").2.1 "sock"
    (Or.inr (by decide)) (by decide) rfl

theorem stepAlreadyDone_true_of_idx (c s : String) (ci si : Nat)
    (h1 : statusIdx c = some ci) (h2 : statusIdx s = some si)
    (hle : si ≤ ci) : stepAlreadyDone (some c) s = true := by
  simp [stepAlreadyDone, h1, h2, hle]

theorem stepAlreadyDone_false_of_unknown (c s : String)
    (h : statusIdx c = none) : stepAlreadyDone (some c) s = false := by
  simp [stepAlreadyDone, h]

theorem sagaStep3_mem_skipped (env : SagaEnv) (r : SagaResult)
    (calls : List ExtCall) (s : String) (hs : s ∈ r.skippedSteps) :
    s ∈ (sagaStep3 env r calls).1.skippedSteps := by
  unfold sagaStep3
  split
  · exact List.mem_append_left _ hs
  · split
    · exact hs
    · exact hs

theorem sagaStep3_mem_completed (env : SagaEnv) (r : SagaResult)
    (calls : List ExtCall) (s : String) (hs : s ∈ r.completedSteps) :
    s ∈ (sagaStep3 env r calls).1.completedSteps := by
  unfold sagaStep3
  split
  · exact List.mem_append_left _ hs
  · split
    · exact List.mem_append_left _ hs
    · exact hs

theorem sagaStep3_calls_no_register (env : SagaEnv) (r : SagaResult)
    (calls : List ExtCall) (h : ExtCall.cmsRegister ∉ calls) :
    ExtCall.cmsRegister ∉ (sagaStep3 env r calls).2 := by
  unfold sagaStep3
  split
  · exact h
  · split
    · simp [List.mem_append, h]
    · rw [compensateCms_eq, compensateWms_eq]
      simp [List.mem_append, h]

theorem sagaStep3_calls_no_wmsAdd (env : SagaEnv) (r : SagaResult)
    (calls : List ExtCall) (h : ExtCall.wmsAdd ∉ calls) :
    ExtCall.wmsAdd ∉ (sagaStep3 env r calls).2 := by
  unfold sagaStep3
  split
  · exact h
  · split
    · simp [List.mem_append, h]
    · rw [compensateCms_eq, compensateWms_eq]
      simp [List.mem_append, h]

theorem sagaStep2_mem_skipped (env : SagaEnv) (r : SagaResult)
    (calls : List ExtCall) (s : String) (hs : s ∈ r.skippedSteps) :
    s ∈ (sagaStep2 env r calls).1.skippedSteps := by
  unfold sagaStep2
  split
  · exact sagaStep3_mem_skipped env _ _ s (List.mem_append_left _ hs)
  · split
    · exact sagaStep3_mem_skipped env _ _ s hs
    · exact hs

theorem sagaStep2_mem_completed (env : SagaEnv) (r : SagaResult)
    (calls : List ExtCall) (s : String) (hs : s ∈ r.completedSteps) :
    s ∈ (sagaStep2 env r calls).1.completedSteps := by
  unfold sagaStep2
  split
  · exact sagaStep3_mem_completed env _ _ s (List.mem_append_left _ hs)
  · split
    · exact sagaStep3_mem_completed env _ _ s (List.mem_append_left _ hs)
    · exact hs

theorem sagaStep2_calls_no_register (env : SagaEnv) (r : SagaResult)
    (calls : List ExtCall) (h : ExtCall.cmsRegister ∉ calls) :
    ExtCall.cmsRegister ∉ (sagaStep2 env r calls).2 := by
  unfold sagaStep2
  split
  · exact sagaStep3_calls_no_register env _ _ h
  · split
    · refine sagaStep3_calls_no_register env _ _ ?_
      simp [List.mem_append, h]
    · rw [compensateCms_eq]
      simp [List.mem_append, h]

/-- C1 (amended): the idempotence skip rule.  Skip half, exactly as the
claim states it: whenever the probed status sits in the five-state
prefix at an index ≥ the step's index, that step is appended to both
`skipped_steps` and `completed_steps` and its external call is absent
from the trace.  Execution half, amended: when the probed status is
outside the prefix list or the probe returned nothing, no step is
skipped; step 1 always executes, and each later step executes provided
every earlier step succeeded (the original claim's unconditional "the
step is executed" fails when an earlier step's failure ends the saga
first). -/
theorem saga_idempotent_skip (env : SagaEnv) (oid : String) :
    (∀ c s ci si, env.fetchedStatus = some c → s ∈ sagaSteps →
      statusIdx c = some ci → statusIdx s = some si → si ≤ ci →
      s ∈ (executeOrderSaga env oid).1.skippedSteps ∧
      s ∈ (executeOrderSaga env oid).1.completedSteps ∧
      stepCall s ∉ (executeOrderSaga env oid).2) ∧
    ((env.fetchedStatus = none ∨
      ∃ c, env.fetchedStatus = some c ∧ statusIdx c = none) →
      (executeOrderSaga env oid).1.skippedSteps = [] ∧
      ExtCall.cmsRegister ∈ (executeOrderSaga env oid).2 ∧
      (env.cmsRegister.isOk = true →
        ExtCall.wmsAdd ∈ (executeOrderSaga env oid).2) ∧
      (env.cmsRegister.isOk = true → env.wmsAdd.isOk = true →
        ExtCall.rosOptimize ∈ (executeOrderSaga env oid).2)) := by
  constructor
  · intro c s ci si hst hs hci hsi hle
    have hs3 : s = "CMS_REGISTERED" ∨ s = "WMS_RECEIVED" ∨
        s = "ROUTE_OPTIMIZED" := by
      simpa [sagaSteps] using hs
    rcases hs3 with rfl | rfl | rfl
    · have hsi1 : si = 1 := by
        have : statusIdx "CMS_REGISTERED" = some 1 := by decide
        rw [this] at hsi; exact (Option.some_inj.mp hsi).symm
      subst hsi1
      have b1 : stepAlreadyDone env.fetchedStatus "CMS_REGISTERED" = true := by
        rw [hst]; exact stepAlreadyDone_true_of_idx c _ ci 1 hci (by decide) hle
      have hred : executeOrderSaga env oid =
          sagaStep2 env
            { success := false, orderId := oid,
              skippedSteps := ["CMS_REGISTERED"],
              completedSteps := ["CMS_REGISTERED"] } [] := by
        simp [executeOrderSaga, b1]
      rw [hred]
      refine ⟨sagaStep2_mem_skipped env _ _ _ (by simp),
        sagaStep2_mem_completed env _ _ _ (by simp), ?_⟩
      have : stepCall "CMS_REGISTERED" = ExtCall.cmsRegister := by decide
      rw [this]
      exact sagaStep2_calls_no_register env _ _ (by simp)
    · have hsi2 : si = 2 := by
        have : statusIdx "WMS_RECEIVED" = some 2 := by decide
        rw [this] at hsi; exact (Option.some_inj.mp hsi).symm
      subst hsi2
      have b1 : stepAlreadyDone env.fetchedStatus "CMS_REGISTERED" = true := by
        rw [hst]
        exact stepAlreadyDone_true_of_idx c _ ci 1 hci (by decide) (by omega)
      have b2 : stepAlreadyDone env.fetchedStatus "WMS_RECEIVED" = true := by
        rw [hst]; exact stepAlreadyDone_true_of_idx c _ ci 2 hci (by decide) hle
      have hred : executeOrderSaga env oid =
          sagaStep3 env
            { success := false, orderId := oid,
              skippedSteps := ["CMS_REGISTERED", "WMS_RECEIVED"],
              completedSteps := ["CMS_REGISTERED", "WMS_RECEIVED"] } [] := by
        simp [executeOrderSaga, sagaStep2, b1, b2]
      rw [hred]
      refine ⟨sagaStep3_mem_skipped env _ _ _ (by simp),
        sagaStep3_mem_completed env _ _ _ (by simp), ?_⟩
      have : stepCall "WMS_RECEIVED" = ExtCall.wmsAdd := by decide
      rw [this]
      exact sagaStep3_calls_no_wmsAdd env _ _ (by simp)
    · have hsi3 : si = 3 := by
        have : statusIdx "ROUTE_OPTIMIZED" = some 3 := by decide
        rw [this] at hsi; exact (Option.some_inj.mp hsi).symm
      subst hsi3
      have b1 : stepAlreadyDone env.fetchedStatus "CMS_REGISTERED" = true := by
        rw [hst]
        exact stepAlreadyDone_true_of_idx c _ ci 1 hci (by decide) (by omega)
      have b2 : stepAlreadyDone env.fetchedStatus "WMS_RECEIVED" = true := by
        rw [hst]
        exact stepAlreadyDone_true_of_idx c _ ci 2 hci (by decide) (by omega)
      have b3 : stepAlreadyDone env.fetchedStatus "ROUTE_OPTIMIZED" = true := by
        rw [hst]; exact stepAlreadyDone_true_of_idx c _ ci 3 hci (by decide) hle
      have hred : executeOrderSaga env oid =
          ({ success := true, orderId := oid,
             skippedSteps := ["CMS_REGISTERED", "WMS_RECEIVED", "ROUTE_OPTIMIZED"],
             completedSteps :=
               ["CMS_REGISTERED", "WMS_RECEIVED", "ROUTE_OPTIMIZED"] }, []) := by
        simp [executeOrderSaga, sagaStep2, sagaStep3, b1, b2, b3]
      rw [hred]
      refine ⟨by simp, by simp, by simp⟩
  · intro hdis
    have hall : ∀ t, stepAlreadyDone env.fetchedStatus t = false := by
      rcases hdis with h | ⟨c, hc, hidx⟩
      · intro t; rw [h]; rfl
      · intro t; rw [hc]; exact stepAlreadyDone_false_of_unknown c t hidx
    cases hcms : env.cmsRegister with
    | error e =>
      refine ⟨?_, ?_, ?_, ?_⟩ <;>
        simp [executeOrderSaga, hall, hcms, Except.isOk, Except.toBool]
    | ok cref =>
      cases hwms : env.wmsAdd with
      | error e =>
        refine ⟨?_, ?_, ?_, ?_⟩ <;>
          simp [executeOrderSaga, sagaStep2, hall, hcms, hwms,
            compensateCms_eq, Except.isOk, Except.toBool]
      | ok wref =>
        cases hros : env.rosOptimize with
        | error e =>
          refine ⟨?_, ?_, ?_, ?_⟩ <;>
            simp [executeOrderSaga, sagaStep2, sagaStep3, hall, hcms, hwms,
              hros, compensateCms_eq, compensateWms_eq]
        | ok rid =>
          refine ⟨?_, ?_, ?_, ?_⟩ <;>
            simp [executeOrderSaga, sagaStep2, sagaStep3, hall, hcms, hwms,
              hros]

/-- C1 witness: an order already at `WMS_RECEIVED` skips steps 1 and 2
with no CMS or WMS call; a probe finding nothing runs step 1. -/
theorem saga_idempotent_skip_witness :
    ("WMS_RECEIVED" ∈
      (executeOrderSaga
        { fetchedStatus := some "WMS_RECEIVED", cmsRegister := .ok "C1",
          wmsAdd := .ok "W1", rosOptimize := .ok (some "R1"),
          cmsCancel := .ok (), wmsCancel := .ok () } "O1").1.skippedSteps ∧
     stepCall "WMS_RECEIVED" ∉
      (executeOrderSaga
        { fetchedStatus := some "WMS_RECEIVED", cmsRegister := .ok "C1",
          wmsAdd := .ok "W1", rosOptimize := .ok (some "R1"),
          cmsCancel := .ok (), wmsCancel := .ok () } "O1").2) ∧
    ExtCall.cmsRegister ∈
      (executeOrderSaga
        { fetchedStatus := none, cmsRegister := .ok "C1",
          wmsAdd := .ok "W1", rosOptimize := .ok (some "R1"),
          cmsCancel := .ok (), wmsCancel := .ok () } "O1").2 := by
  constructor
  · have h := (saga_idempotent_skip
      { fetchedStatus := some "WMS_RECEIVED", cmsRegister := .ok "C1",
        wmsAdd := .ok "W1", rosOptimize := .ok (some "R1"),
        cmsCancel := .ok (), wmsCancel := .ok () } "O1").1
      "WMS_RECEIVED" "WMS_RECEIVED" 2 2 rfl (by decide) (by decide)
      (by decide) (by decide)
    exact ⟨h.1, h.2.2⟩
  · exact ((saga_idempotent_skip
      { fetchedStatus := none, cmsRegister := .ok "C1",
        wmsAdd := .ok "W1", rosOptimize := .ok (some "R1"),
        cmsCancel := .ok (), wmsCancel := .ok () } "O1").2
      (Or.inl rfl)).2.1

/-- C1 counterexample: with the probe returning `FAILED` (outside the
five-state prefix) the claim says every step "is executed", but when
step 1 (CMS) fails the saga returns before step 2: the WMS step of
`sagaSteps` is neither skipped nor executed — the whole trace is the
single CMS call. -/
theorem saga_idempotent_skip_counterexample :
    envProbeFailedCmsDown.fetchedStatus = some "FAILED" ∧
    statusIdx "FAILED" = none ∧
    "WMS_RECEIVED" ∈ sagaSteps ∧
    (executeOrderSaga envProbeFailedCmsDown "O1").2 = [ExtCall.cmsRegister] ∧
    ExtCall.wmsAdd ∉ (executeOrderSaga envProbeFailedCmsDown "O1").2 := by
  refine ⟨rfl, by decide, by decide, rfl, by decide⟩

/-- C3 (amended): the `order.created` handler never re-raises — the saga
converts step failures into `success=false` results and the handler
returns normally after publishing, so under the retry consumer the
message is always acked; the retry topology is registered with
`max_retries=3` and `retry_ttl=30000` ms but a saga step failure does
not exercise it. -/
theorem handler_never_reraises (env : SagaEnv) (body : OrderCreatedBody) :
    (handleOrderCreated env body).isOk = true ∧
    integrationOrderCreatedConsumer.maxRetries = 3 ∧
    integrationOrderCreatedConsumer.retryTtl = 30000 ∧
    (∀ m : IncomingMessage, ∀ qn sn : String,
      processWithRetry m (Except.ok ())
        integrationOrderCreatedConsumer.maxRetries qn sn = RetryAction.ack) := by
  refine ⟨?_, rfl, rfl, ?_⟩
  · cases hres : (executeOrderSaga env (body.orderId.getD "unknown")).1.success <;>
      simp [handleOrderCreated, hres, Except.isOk, Except.toBool]
  · intro m qn sn
    rfl

/-- C3 counterexample: a saga execution that fails at the CMS step
(external error) still leaves the handler returning normally — it does
not re-raise, so the broker never redelivers for saga step failures. -/
theorem handler_reraise_counterexample :
    (executeOrderSaga envCmsDown "O1").1.success = false ∧
    (executeOrderSaga envCmsDown "O1").1.error =
      some "CMS registration failed: 503" ∧
    (handleOrderCreated envCmsDown { orderId := some "O1" }).isOk = true := by
  exact ⟨rfl, rfl, rfl⟩

/-- C4: retry-enabled consumption.  The retry count is the `count` of
the `x-death` entry whose `queue` equals the main queue (0 when the
header is absent or no entry matches); a failing handler with count ≥
`max_retries` yields an ack plus a republish to the `swifttrack.dlq`
exchange carrying the original routing key, the retry count and the
service name; a smaller count yields a nack without requeue, which the
declared topology dead-letters via `swifttrack.dlx` into the
`{queue}.retry` queue. -/
theorem retry_consumer_routing (m : IncomingMessage) (maxRetries : Nat)
    (qn sn e : String) (outcome : Except String Unit) :
    (m.headers.xDeath = none → getRetryCount m.headers qn = 0) ∧
    (∀ l, m.headers.xDeath = some l →
      l.find? (fun en => en.queue == qn) = none →
      getRetryCount m.headers qn = 0) ∧
    (∀ l entry, m.headers.xDeath = some l →
      l.find? (fun en => en.queue == qn) = some entry →
      getRetryCount m.headers qn = entry.count.getD 0) ∧
    (outcome = Except.error e → maxRetries ≤ getRetryCount m.headers qn →
      processWithRetry m outcome maxRetries qn sn =
        RetryAction.ackAndDlq "swifttrack.dlq" m.headers m.routingKey
          (getRetryCount m.headers qn) sn) ∧
    (outcome = Except.error e → getRetryCount m.headers qn < maxRetries →
      processWithRetry m outcome maxRetries qn sn =
        RetryAction.nackNoRequeue) ∧
    (∀ keys ttl,
      (consumeWithRetryTopology qn keys ttl).mainQueueDeadLetterExchange =
        "swifttrack.dlx" ∧
      (consumeWithRetryTopology qn keys ttl).retryQueueName = qn ++ ".retry" ∧
      (consumeWithRetryTopology qn keys ttl).retryQueueBindings =
        keys.map (fun k => ("swifttrack.dlx", k)) ∧
      (consumeWithRetryTopology qn keys ttl).retryQueueTtl = ttl ∧
      (consumeWithRetryTopology qn keys ttl).dlqExchange = "swifttrack.dlq") := by
  refine ⟨?_, ?_, ?_, ?_, ?_, ?_⟩
  · intro h
    simp [getRetryCount, h]
  · intro l hl hf
    simp [getRetryCount, hl, hf]
  · intro l entry hl hf
    simp [getRetryCount, hl, hf]
  · intro ho hge
    simp [processWithRetry, ho, hge]
  · intro ho hlt
    simp [processWithRetry, ho, Nat.not_le.mpr hlt]
  · intro keys ttl
    exact ⟨rfl, rfl, rfl, rfl, rfl⟩

/-- C4 witness: a message whose `x-death` count for the main queue
equals `max_retries = 3` is acked and republished to the DLQ exchange
with retry count 3; count 2 is nacked to the retry queue. -/
theorem retry_consumer_routing_witness :
    processWithRetry
      { headers := { xDeath := some [{ queue := "q.retry", count := some 9 },
                                     { queue := "q", count := some 3 }] },
        routingKey := "order.created", body := Except.ok [] }
      (Except.error "boom") 3 "q" "integration_service" =
      RetryAction.ackAndDlq "swifttrack.dlq"
        { xDeath := some [{ queue := "q.retry", count := some 9 },
                          { queue := "q", count := some 3 }] }
        "order.created" 3 "integration_service" ∧
    processWithRetry
      { headers := { xDeath := some [{ queue := "q", count := some 2 }] },
        routingKey := "order.created", body := Except.ok [] }
      (Except.error "boom") 3 "q" "integration_service" =
      RetryAction.nackNoRequeue := by
  constructor
  · exact (retry_consumer_routing
      { headers := { xDeath := some [{ queue := "q.retry", count := some 9 },
                                     { queue := "q", count := some 3 }] },
        routingKey := "order.created", body := Except.ok [] }
      3 "q" "integration_service" "boom" (Except.error "boom")).2.2.2.1
      rfl (by decide)
  · exact (retry_consumer_routing
      { headers := { xDeath := some [{ queue := "q", count := some 2 }] },
        routingKey := "order.created", body := Except.ok [] }
      3 "q" "integration_service" "boom" (Except.error "boom")).2.2.2.2.1
      rfl (by decide)

theorem find?_key_append (body : List (String × String)) (k v : String) :
    (((body ++ [(k, v)]).find? (fun p => p.1 == k))).isSome = true := by
  induction body with
  | nil => simp [List.find?]
  | cons a tl ih =>
    cases ha : (a.1 == k)
    · simp [List.find?, ha]
    · simp [List.find?, ha]

/-- C5 (amended): the plain `Consume` dispatcher always acks — on
handler success and, because the dispatcher catches and only logs
uncaught handler exceptions, on handler failure as well (the message is
not requeued).  The extracted correlation id is injected into the body
under `_correlation_id` when that key is absent; an already-present key
is left untouched, and after dispatch the key is always present. -/
theorem consume_ack_semantics (m : IncomingMessage) (fresh : String)
    (handler : List (String × String) → Except String Unit) :
    (consumeProcess m fresh handler).1 = ConsumeAction.ack ∧
    (∀ body, m.body = Except.ok body →
      (body.find? (fun p => p.1 == "_correlation_id")).isSome = false →
      (consumeProcess m fresh handler).2 =
        some (body ++ [("_correlation_id",
          extractCorrelationId m.headers.correlationId m.propCorrelationId
            fresh)])) ∧
    (∀ body, m.body = Except.ok body →
      ∃ b, (consumeProcess m fresh handler).2 = some b ∧
        (b.find? (fun p => p.1 == "_correlation_id")).isSome = true) := by
  refine ⟨?_, ?_, ?_⟩
  · unfold consumeProcess
    split
    · rfl
    · dsimp only
      split <;> rfl
  · intro body hb habs
    have hsd : setdefault body "_correlation_id"
        (extractCorrelationId m.headers.correlationId m.propCorrelationId
          fresh) =
        body ++ [("_correlation_id",
          extractCorrelationId m.headers.correlationId m.propCorrelationId
            fresh)] := by
      simp [setdefault, habs]
    simp only [consumeProcess, hb, hsd]
    split <;> rfl
  · intro body hb
    refine ⟨setdefault body "_correlation_id"
      (extractCorrelationId m.headers.correlationId m.propCorrelationId
        fresh), ?_, ?_⟩
    · simp only [consumeProcess, hb]
      split <;> rfl
    · unfold setdefault
      split
      · next hf => exact hf
      · exact find?_key_append body "_correlation_id"
          (extractCorrelationId m.headers.correlationId m.propCorrelationId
            fresh)

/-- C5 witness: a concrete message without `_correlation_id` is acked
and its body is extended with the extracted correlation id. -/
theorem consume_ack_semantics_witness :
    (consumeProcess
      { headers := {}, routingKey := "k",
        body := Except.ok [("order_id", "1")] } "F"
      (fun _ => Except.ok ())).1 = ConsumeAction.ack ∧
    (consumeProcess
      { headers := {}, routingKey := "k",
        body := Except.ok [("order_id", "1")] } "F"
      (fun _ => Except.ok ())).2 =
      some ([("order_id", "1")] ++
        [("_correlation_id", extractCorrelationId none none "F")]) :=
  ⟨(consume_ack_semantics
      { headers := {}, routingKey := "k",
        body := Except.ok [("order_id", "1")] } "F" (fun _ => Except.ok ())).1,
   (consume_ack_semantics
      { headers := {}, routingKey := "k",
        body := Except.ok [("order_id", "1")] } "F"
      (fun _ => Except.ok ())).2.1 [("order_id", "1")] rfl (by decide)⟩

/-- C5 counterexample: a handler that raises is still acked — the
message is not requeued (and an already-present `_correlation_id` key in
the body is kept, not overwritten by the extracted id). -/
theorem consume_requeue_counterexample :
    (consumeProcess
      { headers := {}, routingKey := "k",
        body := Except.ok [("order_id", "1")] } "F"
      (fun _ => Except.error "boom")).1 = ConsumeAction.ack ∧
    ConsumeAction.ack ≠ ConsumeAction.requeue ∧
    extractCorrelationId (some "NEW") none "F" = "NEW" ∧
    (consumeProcess
      { headers := { correlationId := some "NEW" }, routingKey := "k",
        body := Except.ok [("_correlation_id", "OLD")] } "F"
      (fun _ => Except.ok ())).2 = some [("_correlation_id", "OLD")] := by
  exact ⟨rfl, by decide, rfl, rfl⟩

theorem sagaStep3_pres_cms (env : SagaEnv) (r : SagaResult)
    (calls : List ExtCall) :
    (sagaStep3 env r calls).1.cmsReference = r.cmsReference := by
  unfold sagaStep3
  split
  · rfl
  · split <;> rfl

theorem sagaStep3_pres_wms (env : SagaEnv) (r : SagaResult)
    (calls : List ExtCall) :
    (sagaStep3 env r calls).1.wmsReference = r.wmsReference := by
  unfold sagaStep3
  split
  · rfl
  · split <;> rfl

theorem sagaStep2_pres_cms (env : SagaEnv) (r : SagaResult)
    (calls : List ExtCall) :
    (sagaStep2 env r calls).1.cmsReference = r.cmsReference := by
  unfold sagaStep2
  split
  · rw [sagaStep3_pres_cms]
  · split
    · rw [sagaStep3_pres_cms]
    · rfl

theorem sagaStep3_route_of_skip (env : SagaEnv) (r : SagaResult)
    (calls : List ExtCall)
    (h3 : stepAlreadyDone env.fetchedStatus "ROUTE_OPTIMIZED" = true) :
    (sagaStep3 env r calls).1.routeId = r.routeId := by
  unfold sagaStep3
  simp [h3]

theorem sagaStep2_route_of_skip3 (env : SagaEnv) (r : SagaResult)
    (calls : List ExtCall)
    (h3 : stepAlreadyDone env.fetchedStatus "ROUTE_OPTIMIZED" = true) :
    (sagaStep2 env r calls).1.routeId = r.routeId := by
  unfold sagaStep2
  split
  · rw [sagaStep3_route_of_skip env _ _ h3]
  · split
    · rw [sagaStep3_route_of_skip env _ _ h3]
    · rfl

theorem sagaStep2_wms_of_skip (env : SagaEnv) (r : SagaResult)
    (calls : List ExtCall)
    (h2 : stepAlreadyDone env.fetchedStatus "WMS_RECEIVED" = true) :
    (sagaStep2 env r calls).1.wmsReference = r.wmsReference := by
  unfold sagaStep2
  simp [h2, sagaStep3_pres_wms]

/-- C6 (amended): after the saga returns, the caller publishes one
`order.{step_lower}` event per entry of `completed_steps` (skipped steps
included), enriched with the relevant reference when the saga result
carries a truthy one, plus — exactly when `success=false` — one
`order.saga_failed` event whose body carries `error` and
`completed_steps`.  Events of skipped steps carry no reference (the
original claim's unconditional "each enriched with the relevant
reference" fails for them, since skipping a step never sets its
reference). -/
theorem saga_step_events (env : SagaEnv) (body : OrderCreatedBody)
    (oid : String) (res : SagaResult)
    (hoid : oid = body.orderId.getD "unknown")
    (hres : res = (executeOrderSaga env oid).1) :
    handleOrderCreated env body = Except.ok
      (res.completedSteps.map (stepEvent oid body.correlationId res) ++
        (if res.success then []
         else [sagaFailedEvent oid body.correlationId res])) ∧
    ((sagaFailedEvent oid body.correlationId res).error = res.error ∧
     (sagaFailedEvent oid body.correlationId res).completedSteps =
       some res.completedSteps ∧
     (sagaFailedEvent oid body.correlationId res).routingKey =
       "order.saga_failed") ∧
    (∀ s, (stepEvent oid body.correlationId res s).routingKey =
      "order." ++ strLower s) ∧
    (stepAlreadyDone env.fetchedStatus "CMS_REGISTERED" = true →
      res.cmsReference = none ∧
      stepEvent oid body.correlationId res "CMS_REGISTERED" =
        { routingKey := "order.cms_registered",
          event := "order.cms_registered", orderId := oid,
          correlationId := body.correlationId }) ∧
    (stepAlreadyDone env.fetchedStatus "WMS_RECEIVED" = true →
      res.wmsReference = none ∧
      stepEvent oid body.correlationId res "WMS_RECEIVED" =
        { routingKey := "order.wms_received",
          event := "order.wms_received", orderId := oid,
          correlationId := body.correlationId }) ∧
    (stepAlreadyDone env.fetchedStatus "ROUTE_OPTIMIZED" = true →
      res.routeId = none ∧
      stepEvent oid body.correlationId res "ROUTE_OPTIMIZED" =
        { routingKey := "order.route_optimized",
          event := "order.route_optimized", orderId := oid,
          correlationId := body.correlationId }) := by
  subst hoid
  subst hres
  refine ⟨?_, ⟨rfl, rfl, rfl⟩, ?_, ?_, ?_, ?_⟩
  · cases hsucc :
      (executeOrderSaga env (body.orderId.getD "unknown")).1.success <;>
        simp [handleOrderCreated, hsucc]
  · intro s
    unfold stepEvent
    split
    · rfl
    · split
      · rfl
      · split <;> rfl
  · intro hb1
    have hnone :
        (executeOrderSaga env (body.orderId.getD "unknown")).1.cmsReference =
          none := by
      simp [executeOrderSaga, hb1, sagaStep2_pres_cms]
    refine ⟨hnone, ?_⟩
    unfold stepEvent
    rw [hnone]
    rfl
  · intro hb2
    have hnone :
        (executeOrderSaga env (body.orderId.getD "unknown")).1.wmsReference =
          none := by
      cases hb1 : stepAlreadyDone env.fetchedStatus "CMS_REGISTERED"
      · cases hcms : env.cmsRegister with
        | error e => simp [executeOrderSaga, hb1, hcms]
        | ok cref =>
          simp [executeOrderSaga, hb1, hcms, sagaStep2_wms_of_skip env _ _ hb2]
      · simp [executeOrderSaga, hb1, sagaStep2_wms_of_skip env _ _ hb2]
    refine ⟨hnone, ?_⟩
    unfold stepEvent
    rw [hnone]
    rfl
  · intro hb3
    have hnone :
        (executeOrderSaga env (body.orderId.getD "unknown")).1.routeId =
          none := by
      cases hb1 : stepAlreadyDone env.fetchedStatus "CMS_REGISTERED"
      · cases hcms : env.cmsRegister with
        | error e => simp [executeOrderSaga, hb1, hcms]
        | ok cref =>
          simp [executeOrderSaga, hb1, hcms,
            sagaStep2_route_of_skip3 env _ _ hb3]
      · simp [executeOrderSaga, hb1, sagaStep2_route_of_skip3 env _ _ hb3]
    refine ⟨hnone, ?_⟩
    unfold stepEvent
    rw [hnone]
    rfl

/-- C6 witness: with the probe reporting `CMS_REGISTERED`, the handler
publishes the full event list and the skipped CMS step's result carries
no `cms_reference`. -/
theorem saga_step_events_witness :
    (executeOrderSaga envCmsSkipped "O5").1.cmsReference = none ∧
    stepEvent "O5" none (executeOrderSaga envCmsSkipped "O5").1
      "CMS_REGISTERED" =
      { routingKey := "order.cms_registered", event := "order.cms_registered",
        orderId := "O5", correlationId := none } :=
  (saga_step_events envCmsSkipped { orderId := some "O5" } "O5"
    (executeOrderSaga envCmsSkipped "O5").1 rfl rfl).2.2.2.1 (by decide)

/-- C6 counterexample: when step 1 was skipped (probe says
`CMS_REGISTERED`), the published `order.cms_registered` event carries no
`cms_reference` — the claim's "each enriched with the relevant
reference" fails for skipped steps. -/
theorem saga_step_events_counterexample :
    "CMS_REGISTERED" ∈ (executeOrderSaga envCmsSkipped "O5").1.completedSteps ∧
    "CMS_REGISTERED" ∈ (executeOrderSaga envCmsSkipped "O5").1.skippedSteps ∧
    handleOrderCreated envCmsSkipped { orderId := some "O5" } =
      Except.ok skippedCmsEvents ∧
    skippedCmsEvents.head? = some
      { routingKey := "order.cms_registered", event := "order.cms_registered",
        orderId := "O5" } ∧
    (∀ e ∈ skippedCmsEvents, e.routingKey = "order.cms_registered" →
      e.cmsReference = none) := by
  exact ⟨by decide, by decide, rfl, rfl, by decide⟩

/-- The fold inside `assign_driver` (Python's `min(…, key=…)`) returns
an element no worse than the seed and than every list element; when it
is not the seed it sits at an index all of whose predecessors carry
strictly larger load. -/
theorem foldl_minBy_spec (load : String → Nat) (l : List String) (b : String) :
    load (l.foldl (fun best x => if load x < load best then x else best) b) ≤
      load b ∧
    (∀ d ∈ l,
      load (l.foldl (fun best x => if load x < load best then x else best) b) ≤
        load d) ∧
    (l.foldl (fun best x => if load x < load best then x else best) b = b ∨
      ∃ i, l.get? i =
          some (l.foldl (fun best x => if load x < load best then x else best) b) ∧
        load (l.foldl (fun best x => if load x < load best then x else best) b) <
          load b ∧
        (∀ j d, j < i → l.get? j = some d →
          load (l.foldl (fun best x => if load x < load best then x else best) b) <
            load d)) := by
  induction l generalizing b with
  | nil => exact ⟨le_refl _, by simp, Or.inl rfl⟩
  | cons x xs ih =>
    obtain ⟨h1, h2, h3⟩ := ih (if load x < load b then x else b)
    have hbx : load (if load x < load b then x else b) ≤ load b := by
      split
      · omega
      · exact le_refl _
    have hxx : load (if load x < load b then x else b) ≤ load x := by
      split
      · exact le_refl _
      · omega
    refine ⟨le_trans h1 hbx, ?_, ?_⟩
    · intro d hd
      rcases List.mem_cons.mp hd with rfl | hd
      · exact le_trans h1 hxx
      · exact h2 d hd
    · rcases h3 with heq | ⟨i, hi, hlt, hstrict⟩
      · by_cases hx : load x < load b
        · right
          rw [if_pos hx] at heq
          refine ⟨0, ?_, ?_, ?_⟩
          · rw [List.foldl_cons, if_pos hx, heq]
            rfl
          · rw [List.foldl_cons, if_pos hx, heq]
            exact hx
          · intro j d hj _
            omega
        · left
          rw [if_neg hx] at heq
          rw [List.foldl_cons, if_neg hx, heq]
      · right
        refine ⟨i + 1, ?_, ?_, ?_⟩
        · simpa using hi
        · exact lt_of_lt_of_le hlt hbx
        · intro j d hj hget
          cases j with
          | zero =>
            have hd : x = d := by simpa using hget
            subst hd
            exact lt_of_lt_of_le hlt hxx
          | succ j =>
            exact hstrict j d (by omega) (by simpa using hget)

/-- C9: auto-assignment.  An empty roster is a no-op (the order is
returned unchanged, no assignment field written).  A non-empty roster
writes, to the phase's field (pickup vs delivery), a driver whose
active-load count over the phase's statuses (drivers absent from the
group-by counting 0, which is `driverLoad`'s base) is minimal over the
roster, and who is the first in roster order among the minimal-load
drivers; the other phase's field is untouched.  A roster of length one
always assigns its sole driver. -/
theorem auto_assign_min_load (orders : List Order) (roster : List String)
    (order : Order) (phase : String) :
    (assignDriver orders [] order phase = order) ∧
    (roster = [] → assignDriver orders roster order phase = order) ∧
    (∀ d, roster = [d] →
      ((phase == "pickup") = true →
        (assignDriver orders roster order phase).pickupDriverId = some d) ∧
      ((phase == "pickup") = false →
        (assignDriver orders roster order phase).deliveryDriverId = some d)) ∧
    (∀ d0 rest, roster = d0 :: rest →
      ∃ i sel, roster.get? i = some sel ∧
        (((phase == "pickup") = true →
          (assignDriver orders roster order phase).pickupDriverId = some sel ∧
          (assignDriver orders roster order phase).deliveryDriverId =
            order.deliveryDriverId) ∧
         ((phase == "pickup") = false →
          (assignDriver orders roster order phase).deliveryDriverId = some sel ∧
          (assignDriver orders roster order phase).pickupDriverId =
            order.pickupDriverId)) ∧
        (∀ d ∈ roster, driverLoad orders phase sel ≤ driverLoad orders phase d) ∧
        (∀ j d, j < i → roster.get? j = some d →
          driverLoad orders phase sel < driverLoad orders phase d)) := by
  refine ⟨rfl, ?_, ?_, ?_⟩
  · intro h
    subst h
    rfl
  · intro d h
    subst h
    constructor
    · intro hp
      simp [assignDriver, selectDriver, hp]
    · intro hp
      simp [assignDriver, selectDriver, hp]
  · intro d0 rest h
    subst h
    obtain ⟨h1, h2, h3⟩ := foldl_minBy_spec (driverLoad orders phase) rest d0
    rcases h3 with heq | ⟨i, hi, hlt, hstrict⟩
    · refine ⟨0, d0, rfl, ?_, ?_, ?_⟩
      · constructor
        · intro hp
          simp [assignDriver, selectDriver, hp, heq]
        · intro hp
          simp [assignDriver, selectDriver, hp, heq]
      · intro d hd
        rcases List.mem_cons.mp hd with rfl | hd
        · exact le_refl _
        · rw [heq] at h2
          exact h2 d hd
      · intro j d hj _
        omega
    · refine ⟨i + 1,
        rest.foldl
          (fun best x =>
            if driverLoad orders phase x < driverLoad orders phase best then x
            else best) d0, by simpa using hi, ?_, ?_, ?_⟩
      · constructor
        · intro hp
          simp [assignDriver, selectDriver, hp]
        · intro hp
          simp [assignDriver, selectDriver, hp]
      · intro d hd
        rcases List.mem_cons.mp hd with rfl | hd
        · exact h1
        · exact h2 d hd
      · intro j d hj hget
        cases j with
        | zero =>
          have hd : d0 = d := by simpa using hget
          subst hd
          exact hlt
        | succ j =>
          exact hstrict j d (by omega) (by simpa using hget)

/-- C9 witness: on the fixture roster the selected pickup driver is a
minimum-load roster member with all earlier roster entries strictly more
loaded, and a singleton roster assigns its sole driver. -/
theorem auto_assign_min_load_witness :
    (∃ i sel, ["d1", "d2", "d3"].get? i = some sel ∧
      ((("pickup" == "pickup") = true →
        (assignDriver loadFixture ["d1", "d2", "d3"]
          { id := 9, clientId := "c", status := .READY } "pickup").pickupDriverId =
          some sel ∧
        (assignDriver loadFixture ["d1", "d2", "d3"]
          { id := 9, clientId := "c", status := .READY } "pickup").deliveryDriverId =
          ({ id := 9, clientId := "c", status := .READY } : Order).deliveryDriverId) ∧
       ((("pickup" == "pickup") = false) →
        (assignDriver loadFixture ["d1", "d2", "d3"]
          { id := 9, clientId := "c", status := .READY } "pickup").deliveryDriverId =
          some sel ∧
        (assignDriver loadFixture ["d1", "d2", "d3"]
          { id := 9, clientId := "c", status := .READY } "pickup").pickupDriverId =
          ({ id := 9, clientId := "c", status := .READY } : Order).pickupDriverId)) ∧
      (∀ d ∈ ["d1", "d2", "d3"],
        driverLoad loadFixture "pickup" sel ≤ driverLoad loadFixture "pickup" d) ∧
      (∀ j d, j < i → ["d1", "d2", "d3"].get? j = some d →
        driverLoad loadFixture "pickup" sel < driverLoad loadFixture "pickup" d)) ∧
    (assignDriver loadFixture ["solo"]
      { id := 9, clientId := "c", status := .READY } "pickup").pickupDriverId =
      some "solo" := by
  constructor
  · exact (auto_assign_min_load loadFixture ["d1", "d2", "d3"]
      { id := 9, clientId := "c", status := .READY } "pickup").2.2.2
      "d1" ["d2", "d3"] rfl
  · exact ((auto_assign_min_load loadFixture ["solo"]
      { id := 9, clientId := "c", status := .READY } "pickup").2.2.1
      "solo" rfl).1 rfl

theorem applyExtraFields_id (o : Order) (ef : ExtraFields) :
    (applyExtraFields o ef).id = o.id := rfl

theorem applyExtraFields_status (o : Order) (ef : ExtraFields) :
    (applyExtraFields o ef).status = o.status := rfl

theorem applyExtraFields_attempts (o : Order) (ef : ExtraFields) (v : Nat)
    (h : ef.deliveryAttempts = some v) :
    (applyExtraFields o ef).deliveryAttempts = v := by
  simp [applyExtraFields, h]

theorem findOrder_id (db : DB) (orderId : Nat) (o : Order)
    (h : findOrder db orderId = some o) : o.id = orderId := by
  unfold findOrder at h
  have := List.find?_some h
  simpa using this

theorem find?_map_replace (l : List Order) (orderId : Nat) (updated : Order)
    (hid : updated.id = orderId) (o : Order)
    (h : l.find? (fun x => x.id == orderId) = some o) :
    (l.map (fun x => if x.id == orderId then updated else x)).find?
      (fun x => x.id == orderId) = some updated := by
  induction l with
  | nil => simp at h
  | cons a tl ih =>
    cases ha : (a.id == orderId)
    · simp only [List.find?, ha] at h
      simp only [List.map_cons, List.find?, ha, if_neg]
      simpa [ha] using ih h
    · simp [List.map_cons, List.find?, ha, hid]

theorem updateOrderStatus_found (db : DB) (orderId : Nat) (st : OrderStatus)
    (details : Option String) (ef : ExtraFields) (order : Order)
    (h : findOrder db orderId = some order) :
    (updateOrderStatus db orderId st details ef).1 =
      some (applyExtraFields { order with status := st } ef) ∧
    (updateOrderStatus db orderId st details ef).2.history =
      db.history ++ [{ orderId := orderId, oldStatus := some order.status,
                       newStatus := st, details := details }] ∧
    findOrder (updateOrderStatus db orderId st details ef).2 orderId =
      some (applyExtraFields { order with status := st } ef) ∧
    (updateOrderStatus db orderId st details ef).2.orders =
      db.orders.map (fun o => if o.id == orderId
        then applyExtraFields { order with status := st } ef else o) ∧
    (updateOrderStatus db orderId st details ef).2.nextId = db.nextId := by
  have hid : (applyExtraFields { order with status := st } ef).id = orderId := by
    rw [applyExtraFields_id]
    exact findOrder_id db orderId order h
  unfold updateOrderStatus
  rw [h]
  refine ⟨rfl, rfl, ?_, rfl, rfl⟩
  unfold findOrder at h ⊢
  exact find?_map_replace db.orders orderId _ hid order h

/-- C8: a driver PATCH to `DELIVERY_ATTEMPTED` on an existing order
stores `delivery_attempts = old + 1`; when that new value reaches (or
exceeds) `max_delivery_attempts` the status actually written — and the
status published — is `FAILED`, otherwise `DELIVERY_ATTEMPTED`. -/
theorem delivery_attempt_escalation (db : DB) (roster : List String)
    (orderId : Nat) (payload : OrderStatusUpdatePayload) (order : Order)
    (hst : payload.status = "DELIVERY_ATTEMPTED")
    (hfound : findOrder db orderId = some order) :
    ∃ o, (updateOrderStatusEndpoint db roster orderId payload).1 =
        Except.ok o ∧
      o.deliveryAttempts = order.deliveryAttempts + 1 ∧
      o.status = (if order.deliveryAttempts + 1 < order.maxDeliveryAttempts
        then OrderStatus.DELIVERY_ATTEMPTED else OrderStatus.FAILED) ∧
      findOrder (updateOrderStatusEndpoint db roster orderId payload).2.1
        orderId = some o ∧
      (updateOrderStatusEndpoint db roster orderId payload).2.2 =
        [{ orderId := orderId,
           status := if order.deliveryAttempts + 1 < order.maxDeliveryAttempts
             then "DELIVERY_ATTEMPTED" else "FAILED" }] := by
  by_cases hlt : order.deliveryAttempts + 1 < order.maxDeliveryAttempts
  · have hupd := updateOrderStatus_found db orderId
      OrderStatus.DELIVERY_ATTEMPTED
      (some "Driver update: DELIVERY_ATTEMPTED")
      { deliveryNotes :=
          if truthy payload.deliveryNotes then payload.deliveryNotes else none
        proofOfDelivery :=
          if truthy payload.proofOfDelivery then payload.proofOfDelivery
          else none
        pickupDriverId :=
          if truthy payload.pickupDriverId then payload.pickupDriverId
          else none
        deliveryDriverId :=
          if truthy payload.deliveryDriverId then payload.deliveryDriverId
          else none
        deliveryAttempts := some (order.deliveryAttempts + 1) }
      order hfound
    refine ⟨applyExtraFields
      { order with status := OrderStatus.DELIVERY_ATTEMPTED }
      { deliveryNotes :=
          if truthy payload.deliveryNotes then payload.deliveryNotes else none
        proofOfDelivery :=
          if truthy payload.proofOfDelivery then payload.proofOfDelivery
          else none
        pickupDriverId :=
          if truthy payload.pickupDriverId then payload.pickupDriverId
          else none
        deliveryDriverId :=
          if truthy payload.deliveryDriverId then payload.deliveryDriverId
          else none
        deliveryAttempts := some (order.deliveryAttempts + 1) }, ?_, ?_, ?_, ?_, ?_⟩
    · simp [updateOrderStatusEndpoint, allowedDriverStatuses, hst, hfound,
        hlt, OrderStatus.ofWire, hupd.1]
    · exact applyExtraFields_attempts _ _ _ rfl
    · rw [applyExtraFields_status, if_pos hlt]
    · simp [updateOrderStatusEndpoint, allowedDriverStatuses, hst, hfound,
        hlt, OrderStatus.ofWire, hupd.1, hupd.2.2.1]
    · simp [updateOrderStatusEndpoint, allowedDriverStatuses, hst, hfound,
        hlt, OrderStatus.ofWire, hupd.1]
  · have hupd := updateOrderStatus_found db orderId
      OrderStatus.FAILED
      (some "Driver update: DELIVERY_ATTEMPTED")
      { deliveryNotes :=
          if truthy payload.deliveryNotes then payload.deliveryNotes else none
        proofOfDelivery :=
          if truthy payload.proofOfDelivery then payload.proofOfDelivery
          else none
        pickupDriverId :=
          if truthy payload.pickupDriverId then payload.pickupDriverId
          else none
        deliveryDriverId :=
          if truthy payload.deliveryDriverId then payload.deliveryDriverId
          else none
        deliveryAttempts := some (order.deliveryAttempts + 1) }
      order hfound
    refine ⟨applyExtraFields
      { order with status := OrderStatus.FAILED }
      { deliveryNotes :=
          if truthy payload.deliveryNotes then payload.deliveryNotes else none
        proofOfDelivery :=
          if truthy payload.proofOfDelivery then payload.proofOfDelivery
          else none
        pickupDriverId :=
          if truthy payload.pickupDriverId then payload.pickupDriverId
          else none
        deliveryDriverId :=
          if truthy payload.deliveryDriverId then payload.deliveryDriverId
          else none
        deliveryAttempts := some (order.deliveryAttempts + 1) }, ?_, ?_, ?_, ?_, ?_⟩
    · simp [updateOrderStatusEndpoint, allowedDriverStatuses, hst, hfound,
        hlt, OrderStatus.ofWire, hupd.1]
    · exact applyExtraFields_attempts _ _ _ rfl
    · rw [applyExtraFields_status, if_neg hlt]
    · simp [updateOrderStatusEndpoint, allowedDriverStatuses, hst, hfound,
        hlt, OrderStatus.ofWire, hupd.1, hupd.2.2.1]
    · simp [updateOrderStatusEndpoint, allowedDriverStatuses, hst, hfound,
        hlt, OrderStatus.ofWire, hupd.1]

theorem applyExtraFields_routeId_of_some (o : Order) (ef : ExtraFields)
    (v : String) (h : ef.routeId = some v) :
    (applyExtraFields o ef).routeId = some v := by
  simp [applyExtraFields, h]

theorem applyExtraFields_routeId_of_none (o : Order) (ef : ExtraFields)
    (h : ef.routeId = none) :
    (applyExtraFields o ef).routeId = o.routeId := by
  simp [applyExtraFields, h]

theorem applyExtraFields_pickup_of_some (o : Order) (ef : ExtraFields)
    (v : String) (h : ef.pickupDriverId = some v) :
    (applyExtraFields o ef).pickupDriverId = some v := by
  simp [applyExtraFields, h]

theorem applyExtraFields_pickup_of_none (o : Order) (ef : ExtraFields)
    (h : ef.pickupDriverId = none) :
    (applyExtraFields o ef).pickupDriverId = o.pickupDriverId := by
  simp [applyExtraFields, h]

theorem assignDriver_pickup_cons (orders : List Order) (d0 : String)
    (rest : List String) (order : Order) :
    ∃ sel, sel ∈ d0 :: rest ∧
      assignDriver orders (d0 :: rest) order "pickup" =
        { order with pickupDriverId := some sel } := by
  refine ⟨rest.foldl
    (fun best x =>
      if driverLoad orders "pickup" x < driverLoad orders "pickup" best then x
      else best) d0, ?_, ?_⟩
  · rcases (foldl_minBy_spec (driverLoad orders "pickup") rest d0).2.2 with
      heq | ⟨i, hi, _, _⟩
    · rw [heq]
      exact List.mem_cons_self _ _
    · exact List.mem_cons_of_mem _ (List.get?_mem hi)
  · simp [assignDriver, selectDriver]

/-- C7: Status Reactor on `order.route_optimized` for an existing order
with a `route_id` in the body.  The order is transitioned to `READY`
(not `ROUTE_OPTIMIZED`) with the route id stored, and one
`notification.status_changed` carrying `READY` is published first.
With an empty roster (and no stale pickup driver) that is all.  With a
non-empty roster of non-empty names, the Auto-Assigner selects a roster
driver, a second transition to `PICKUP_ASSIGNED` with that driver is
performed, and a second `notification.status_changed` is published. -/
theorem route_optimized_reactor (db : DB) (roster : List String)
    (body : StatusUpdateBody) (orderId : Nat) (order : Order) (rid : String)
    (hev : body.event = "order.route_optimized")
    (hoid : body.orderId = some orderId)
    (hfound : findOrder db orderId = some order)
    (hrid : body.routeId = some rid) :
    ((handleStatusUpdate db roster body).2.head? =
      some { orderId := orderId, status := "READY",
             correlationId := body.correlationId }) ∧
    (∃ tail, (handleStatusUpdate db roster body).1.history =
      db.history ++
        [{ orderId := orderId, oldStatus := some order.status,
           newStatus := OrderStatus.READY,
           details :=
             some (body.details.getD "Updated via order.route_optimized") }]
        ++ tail) ∧
    (roster = [] → order.pickupDriverId = none →
      (handleStatusUpdate db roster body).2 =
        [{ orderId := orderId, status := "READY",
           correlationId := body.correlationId }] ∧
      ∃ o, findOrder (handleStatusUpdate db roster body).1 orderId = some o ∧
        o.status = OrderStatus.READY ∧ o.routeId = some rid) ∧
    (∀ d0 rest, roster = d0 :: rest → (∀ d ∈ roster, d ≠ "") →
      ∃ sel, sel ∈ roster ∧
        (handleStatusUpdate db roster body).2 =
          [{ orderId := orderId, status := "READY",
             correlationId := body.correlationId },
           { orderId := orderId, status := "PICKUP_ASSIGNED",
             correlationId := body.correlationId }] ∧
        (∃ o, findOrder (handleStatusUpdate db roster body).1 orderId =
            some o ∧
          o.status = OrderStatus.PICKUP_ASSIGNED ∧
          o.pickupDriverId = some sel ∧ o.routeId = some rid) ∧
        (handleStatusUpdate db roster body).1.history =
          db.history ++
            [{ orderId := orderId, oldStatus := some order.status,
               newStatus := OrderStatus.READY,
               details :=
                 some (body.details.getD "Updated via order.route_optimized") },
             { orderId := orderId, oldStatus := some OrderStatus.READY,
               newStatus := OrderStatus.PICKUP_ASSIGNED,
               details := some "System auto-assigned pickup driver" }]) := by
  have hupd1 := updateOrderStatus_found db orderId OrderStatus.READY
    (some (body.details.getD "Updated via order.route_optimized"))
    { routeId := body.routeId } order hfound
  have ho1status :
      (applyExtraFields { order with status := OrderStatus.READY }
        { routeId := body.routeId }).status = OrderStatus.READY := by
    rw [applyExtraFields_status]
  have ho1route :
      (applyExtraFields { order with status := OrderStatus.READY }
        { routeId := body.routeId }).routeId = some rid :=
    applyExtraFields_routeId_of_some _ _ _ hrid
  have ho1pickup :
      (applyExtraFields { order with status := OrderStatus.READY }
        { routeId := body.routeId }).pickupDriverId = order.pickupDriverId :=
    applyExtraFields_pickup_of_none _ _ rfl
  have hred : handleStatusUpdate db roster body =
      (if truthy (assignDriver
          (updateOrderStatus db orderId OrderStatus.READY
            (some (body.details.getD "Updated via order.route_optimized"))
            { routeId := body.routeId }).2.orders roster
          (applyExtraFields { order with status := OrderStatus.READY }
            { routeId := body.routeId }) "pickup").pickupDriverId then
        ((updateOrderStatus
            (updateOrderStatus db orderId OrderStatus.READY
              (some (body.details.getD "Updated via order.route_optimized"))
              { routeId := body.routeId }).2 orderId
            OrderStatus.PICKUP_ASSIGNED
            (some "System auto-assigned pickup driver")
            { pickupDriverId := (assignDriver
                (updateOrderStatus db orderId OrderStatus.READY
                  (some (body.details.getD "Updated via order.route_optimized"))
                  { routeId := body.routeId }).2.orders roster
                (applyExtraFields { order with status := OrderStatus.READY }
                  { routeId := body.routeId }) "pickup").pickupDriverId }).2,
         [{ orderId := orderId, status := "READY",
            correlationId := body.correlationId },
          { orderId := orderId, status := "PICKUP_ASSIGNED",
            correlationId := body.correlationId }])
      else
        ((updateOrderStatus db orderId OrderStatus.READY
            (some (body.details.getD "Updated via order.route_optimized"))
            { routeId := body.routeId }).2,
         [{ orderId := orderId, status := "READY",
            correlationId := body.correlationId }])) := by
    simp only [handleStatusUpdate, hoid, hev, reactorStatusMap,
      reactorExtraFields, OrderStatus.toWire]
    simp [hupd1.1, OrderStatus.toWire]
  set o1 := applyExtraFields { order with status := OrderStatus.READY }
    { routeId := body.routeId } with ho1def
  set db1 := (updateOrderStatus db orderId OrderStatus.READY
    (some (body.details.getD "Updated via order.route_optimized"))
    { routeId := body.routeId }).2 with hdb1def
  refine ⟨?_, ?_, ?_, ?_⟩
  · rw [hred]
    split <;> rfl
  · rw [hred]
    split
    · have hupd2 := updateOrderStatus_found db1 orderId
        OrderStatus.PICKUP_ASSIGNED (some "System auto-assigned pickup driver")
        { pickupDriverId := (assignDriver db1.orders roster o1
            "pickup").pickupDriverId } o1 hupd1.2.2.1
      refine ⟨[{ orderId := orderId, oldStatus := some o1.status,
                 newStatus := OrderStatus.PICKUP_ASSIGNED,
                 details := some "System auto-assigned pickup driver" }], ?_⟩
      rw [hupd2.2.1, hupd1.2.1, List.append_assoc]
    · exact ⟨[], by simp [hupd1.2.1]⟩
  · intro hr hpick
    subst hr
    have hfalse : truthy (assignDriver db1.orders ([] : List String) o1
        "pickup").pickupDriverId = false := by
      show truthy o1.pickupDriverId = false
      rw [ho1pickup, hpick]
      rfl
    rw [hred, if_neg (by rw [hfalse]; exact Bool.false_ne_true)]
    exact ⟨rfl, o1, hupd1.2.2.1, ho1status, ho1route⟩
  · intro d0 rest hr hne
    subst hr
    obtain ⟨sel, hmem, hassign⟩ := assignDriver_pickup_cons db1.orders d0 rest o1
    have hsel : (assignDriver db1.orders (d0 :: rest) o1
        "pickup").pickupDriverId = some sel := by
      rw [hassign]
    have htrue : truthy (assignDriver db1.orders (d0 :: rest) o1
        "pickup").pickupDriverId = true := by
      rw [hsel]
      have hnz : sel ≠ "" := hne sel hmem
      simp [truthy, hnz]
    have hupd2 := updateOrderStatus_found db1 orderId
      OrderStatus.PICKUP_ASSIGNED (some "System auto-assigned pickup driver")
      { pickupDriverId := (assignDriver db1.orders (d0 :: rest) o1
          "pickup").pickupDriverId } o1 hupd1.2.2.1
    rw [hred, if_pos htrue]
    refine ⟨sel, hmem, rfl, ⟨applyExtraFields
      { o1 with status := OrderStatus.PICKUP_ASSIGNED }
      { pickupDriverId := (assignDriver db1.orders (d0 :: rest) o1
          "pickup").pickupDriverId }, hupd2.2.2.1, ?_, ?_, ?_⟩, ?_⟩
    · rw [applyExtraFields_status]
    · exact applyExtraFields_pickup_of_some _ _ sel (by rw [hsel])
    · rw [applyExtraFields_routeId_of_none _ _ rfl]
      exact ho1route
    · rw [hupd2.2.1, hupd1.2.1, List.append_assoc, ho1status]
      rfl

/-- C8 witness: on a concrete order with `delivery_attempts=2`,
`max=3`, a driver PATCH to `DELIVERY_ATTEMPTED` stores attempts 3 and
writes status `FAILED`. -/
theorem delivery_attempt_escalation_witness :
    ∃ o, (updateOrderStatusEndpoint attemptFixture ["d1"] 0
        { status := "DELIVERY_ATTEMPTED" }).1 = Except.ok o ∧
      o.deliveryAttempts = attemptOrder.deliveryAttempts + 1 ∧
      o.status = (if attemptOrder.deliveryAttempts + 1 <
          attemptOrder.maxDeliveryAttempts
        then OrderStatus.DELIVERY_ATTEMPTED else OrderStatus.FAILED) ∧
      findOrder (updateOrderStatusEndpoint attemptFixture ["d1"] 0
        { status := "DELIVERY_ATTEMPTED" }).2.1 0 = some o ∧
      (updateOrderStatusEndpoint attemptFixture ["d1"] 0
        { status := "DELIVERY_ATTEMPTED" }).2.2 =
        [{ orderId := 0,
           status := if attemptOrder.deliveryAttempts + 1 <
               attemptOrder.maxDeliveryAttempts
             then "DELIVERY_ATTEMPTED" else "FAILED" }] :=
  delivery_attempt_escalation attemptFixture ["d1"] 0
    { status := "DELIVERY_ATTEMPTED" } attemptOrder rfl rfl

/-- C7 witness: a concrete `order.route_optimized` event on a freshly
created order with roster `["d1", "d2"]` performs both transitions and
both notifications. -/
theorem route_optimized_reactor_witness :
    ∃ sel, sel ∈ ["d1", "d2"] ∧
      (handleStatusUpdate reactorFixture ["d1", "d2"] reactorBody).2 =
        [{ orderId := 0, status := "READY", correlationId := some "cc" },
         { orderId := 0, status := "PICKUP_ASSIGNED",
           correlationId := some "cc" }] ∧
      (∃ o, findOrder
          (handleStatusUpdate reactorFixture ["d1", "d2"] reactorBody).1 0 =
            some o ∧
        o.status = OrderStatus.PICKUP_ASSIGNED ∧
        o.pickupDriverId = some sel ∧ o.routeId = some "RT-1") ∧
      (handleStatusUpdate reactorFixture ["d1", "d2"] reactorBody).1.history =
        reactorFixture.history ++
          [{ orderId := 0, oldStatus := some reactorOrder.status,
             newStatus := OrderStatus.READY,
             details := some (reactorBody.details.getD
               "Updated via order.route_optimized") },
           { orderId := 0, oldStatus := some OrderStatus.READY,
             newStatus := OrderStatus.PICKUP_ASSIGNED,
             details := some "System auto-assigned pickup driver" }] :=
  (route_optimized_reactor reactorFixture ["d1", "d2"] reactorBody 0
    reactorOrder "RT-1" rfl rfl rfl rfl).2.2.2 "d1" ["d2"] rfl (by decide)

theorem filter_orderId_append (l : List HistoryEntry) (e : HistoryEntry)
    (oid : Nat) :
    (l ++ [e]).filter (fun x => x.orderId == oid) =
      l.filter (fun x => x.orderId == oid) ++
        (if e.orderId == oid then [e] else []) := by
  rw [List.filter_append]
  congr 1
  cases he : (e.orderId == oid) <;> simp [List.filter, he]

theorem isChain_concat (l : List HistoryEntry) (e : HistoryEntry)
    (hl : isChain l = true)
    (hlink : ∀ last, l.getLast? = some last →
      e.oldStatus = some last.newStatus) :
    isChain (l ++ [e]) = true := by
  induction l with
  | nil => rfl
  | cons a tl ih =>
    cases tl with
    | nil =>
      have := hlink a rfl
      simp [isChain, this]
    | cons b tl2 =>
      rw [List.cons_append, List.cons_append, isChain]
      rw [isChain] at hl
      rw [Bool.and_eq_true] at hl ⊢
      refine ⟨hl.1, ?_⟩
      rw [← List.cons_append]
      refine ih hl.2 ?_
      intro last hlast
      refine hlink last ?_
      rw [List.getLast?_cons_cons]
      exact hlast

theorem mem_eq_of_nodup_ids (l : List Order)
    (hnd : (l.map (fun o => o.id)).Nodup) (a b : Order)
    (ha : a ∈ l) (hb : b ∈ l) (hid : a.id = b.id) : a = b := by
  induction l with
  | nil => cases ha
  | cons x tl ih =>
    rw [List.map_cons, List.nodup_cons] at hnd
    rcases List.mem_cons.mp ha with rfl | ha' <;>
      rcases List.mem_cons.mp hb with rfl | hb'
    · rfl
    · exact absurd (hid ▸ List.mem_map_of_mem (fun o => o.id) hb') hnd.1
    · exact absurd (hid ▸ List.mem_map_of_mem (fun o => o.id) ha') hnd.1
    · exact ih hnd.2 ha' hb'

theorem replace_map_ids (l : List Order) (oid : Nat) (updated : Order)
    (hid : updated.id = oid) :
    (l.map (fun o => if o.id == oid then updated else o)).map
        (fun o => o.id) =
      l.map (fun o => o.id) := by
  rw [List.map_map]
  refine List.map_congr_left ?_
  intro o _
  by_cases h : o.id = oid
  · simp [Function.comp, h, hid]
  · simp [Function.comp, h]

theorem createOrder_inv (db : DB) (c p d pd : String) (h : storeInv db) :
    storeInv (createOrder db c p d pd).2 := by
  obtain ⟨hlt, hnd, hown, hch⟩ := h
  refine ⟨?_, ?_, ?_, ?_⟩
  · intro o ho
    rcases List.mem_append.mp ho with ho | ho
    · exact Nat.lt_succ_of_lt (hlt o ho)
    · rcases List.mem_singleton.mp ho with rfl
      exact Nat.lt_succ_self _
  · show ((db.orders ++ _).map _).Nodup
    rw [List.map_append]
    rw [List.nodup_append]
    refine ⟨hnd, List.nodup_singleton _, ?_⟩
    intro x hx hx'
    rcases List.mem_map.mp hx with ⟨o, ho, rfl⟩
    rcases List.mem_singleton.mp (by simpa using hx') with h
    exact absurd h (Nat.ne_of_lt (hlt o ho))
  · intro e he
    rcases List.mem_append.mp he with he | he
    · obtain ⟨o, ho, hoe⟩ := hown e he
      exact ⟨o, List.mem_append_left _ ho, hoe⟩
    · rcases List.mem_singleton.mp he with rfl
      exact ⟨_, List.mem_append_right _ (List.mem_singleton_self _), rfl⟩
  · intro o ho
    rcases List.mem_append.mp ho with ho | ho
    · have hne : ((⟨db.nextId, none, OrderStatus.PENDING,
          some "Order created"⟩ : HistoryEntry).orderId == o.id) = false := by
        simp
        exact (Nat.ne_of_lt (hlt o ho)).symm
      have hfil : historyOf (createOrder db c p d pd).2 o.id =
          historyOf db o.id := by
        show (db.history ++ _).filter _ = _
        rw [filter_orderId_append, hne]
        simp [historyOf]
      rw [hfil]
      exact hch o ho
    · rcases List.mem_singleton.mp ho with rfl
      have hnil : db.history.filter
          (fun x => x.orderId == db.nextId) = [] := by
        rw [List.filter_eq_nil_iff]
        intro e he
        obtain ⟨o, ho, hoe⟩ := hown e he
        simp only [beq_iff_eq]
        rw [← hoe]
        exact Nat.ne_of_lt (hlt o ho)
      have hfil : historyOf (createOrder db c p d pd).2 db.nextId =
          [⟨db.nextId, none, OrderStatus.PENDING, some "Order created"⟩] := by
        show (db.history ++ _).filter _ = _
        rw [filter_orderId_append]
        rw [hnil]
        simp
      refine ⟨_, [], hfil, rfl, rfl, ?_, ?_⟩
      · rw [hfil]
        rfl
      · rw [hfil]
        rfl

theorem updateOrderStatus_inv (db : DB) (oid : Nat) (st : OrderStatus)
    (details : Option String) (ef : ExtraFields) (h : storeInv db) :
    storeInv (updateOrderStatus db oid st details ef).2 := by
  obtain ⟨hlt, hnd, hown, hch⟩ := h
  cases hfound : findOrder db oid with
  | none =>
    have : (updateOrderStatus db oid st details ef).2 = db := by
      unfold updateOrderStatus
      rw [hfound]
    rw [this]
    exact ⟨hlt, hnd, hown, hch⟩
  | some order =>
    have horder_mem : order ∈ db.orders := by
      unfold findOrder at hfound
      exact List.mem_of_find?_eq_some hfound
    have horder_id : order.id = oid := findOrder_id db oid order hfound
    have hupd := updateOrderStatus_found db oid st details ef order hfound
    have hupd_id :
        (applyExtraFields { order with status := st } ef).id = oid := by
      rw [applyExtraFields_id]
      exact horder_id
    have hidpres : ∀ o0 : Order,
        ((if o0.id == oid then applyExtraFields { order with status := st } ef
          else o0)).id = o0.id := by
      intro o0
      split
      · next hb => exact hupd_id.trans (beq_iff_eq.mp hb).symm
      · rfl
    refine ⟨?_, ?_, ?_, ?_⟩
    · intro o ho
      rw [hupd.2.2.2.1] at ho
      obtain ⟨o0, ho0, rfl⟩ := List.mem_map.mp ho
      rw [hupd.2.2.2.2, hidpres o0]
      exact hlt o0 ho0
    · rw [hupd.2.2.2.1, replace_map_ids db.orders oid _ hupd_id]
      exact hnd
    · intro e he
      rw [hupd.2.1] at he
      rcases List.mem_append.mp he with he | he
      · obtain ⟨o0, ho0, hoe⟩ := hown e he
        refine ⟨if o0.id == oid
          then applyExtraFields { order with status := st } ef else o0, ?_, ?_⟩
        · rw [hupd.2.2.2.1]
          exact List.mem_map_of_mem _ ho0
        · rw [hidpres o0]
          exact hoe
      · rcases List.mem_singleton.mp he with rfl
        refine ⟨applyExtraFields { order with status := st } ef, ?_, hupd_id⟩
        rw [hupd.2.2.2.1]
        have hmem := List.mem_map_of_mem
          (fun o => if o.id == oid
            then applyExtraFields { order with status := st } ef else o)
          horder_mem
        simpa [horder_id] using hmem
    · intro o ho
      rw [hupd.2.2.2.1] at ho
      obtain ⟨o0, ho0, rfl⟩ := List.mem_map.mp ho
      by_cases hid : o0.id = oid
      · have ho0eq : o0 = order :=
          mem_eq_of_nodup_ids db.orders hnd o0 order ho0 horder_mem
            (by rw [hid, horder_id])
        have helem : (if o0.id == oid
            then applyExtraFields { order with status := st } ef else o0) =
            applyExtraFields { order with status := st } ef := by
          simp [hid]
        rw [helem]
        obtain ⟨e0, rest, hh, hh0, hhp, hchain, hlast⟩ := hch o0 ho0
        rw [hid] at hh hchain hlast
        have hfil :
            historyOf (updateOrderStatus db oid st details ef).2
              (applyExtraFields { order with status := st } ef).id =
            historyOf db oid ++
              [{ orderId := oid, oldStatus := some order.status,
                 newStatus := st, details := details }] := by
          unfold historyOf
          rw [hupd_id, hupd.2.1, filter_orderId_append]
          simp
        rw [hfil]
        refine ⟨e0, rest ++
          [{ orderId := oid, oldStatus := some order.status,
             newStatus := st, details := details }], ?_, hh0, hhp, ?_, ?_⟩
        · rw [hh]
          rfl
        · refine isChain_concat _ _ hchain ?_
          intro last hlastE
          rw [hlastE] at hlast
          have : last.newStatus = o0.status := by
            simpa using hlast
          rw [ho0eq] at this
          simp [this]
        · rw [List.getLast?_concat]
          simp [applyExtraFields_status]
      · have helem : (if o0.id == oid
            then applyExtraFields { order with status := st } ef else o0) =
            o0 := by
          simp [hid]
        rw [helem]
        have hfil :
            historyOf (updateOrderStatus db oid st details ef).2 o0.id =
            historyOf db o0.id := by
          unfold historyOf
          rw [hupd.2.1, filter_orderId_append]
          have hbe : (oid == o0.id) = false := by
            simp only [beq_eq_false_iff_ne, ne_eq]
            exact fun hc => hid hc.symm
          simp [hbe]
        rw [hfil]
        exact hch o0 ho0

theorem storeInv_empty : storeInv {} := by
  refine ⟨?_, ?_, ?_, ?_⟩ <;> simp [storeInv, DB.orders, DB.history]

theorem storeInv_runOps (ops : List StoreOp) : storeInv (runOps ops) := by
  have hstep : ∀ l : List StoreOp, ∀ db, storeInv db →
      storeInv (l.foldl applyOp db) := by
    intro l
    induction l with
    | nil => intro db h; exact h
    | cons op tl ih =>
      intro db h
      rw [List.foldl_cons]
      refine ih _ ?_
      cases op with
      | create c p d pd => exact createOrder_inv db c p d pd h
      | transition oid st dt ef => exact updateOrderStatus_inv db oid st dt ef h
  exact hstep ops {} storeInv_empty

/-- C10: history is a chain.  Part 1: in any store reachable from the
empty store by the two write operations, each order's history starts
with the creation entry (`old_status` null, `new_status` `PENDING`),
consecutive entries (in `created_at` = insertion order) link up —
the later entry's `old_status` equals the earlier one's `new_status` —
and the last entry's `new_status` is the order's current status.
Part 2: each successful transition appends exactly one history entry
whose `old_status` is the order's status immediately before the call and
whose `new_status` is the status written to the order. -/
theorem history_chain_invariant (ops : List StoreOp) :
    (∀ o ∈ (runOps ops).orders,
      ∃ e0 rest, historyOf (runOps ops) o.id = e0 :: rest ∧
        e0.oldStatus = none ∧ e0.newStatus = OrderStatus.PENDING ∧
        isChain (historyOf (runOps ops) o.id) = true ∧
        (historyOf (runOps ops) o.id).getLast?.map
          (fun e => e.newStatus) = some o.status) ∧
    (∀ db orderId st details ef order,
      findOrder db orderId = some order →
      (updateOrderStatus db orderId st details ef).2.history =
        db.history ++
          [{ orderId := orderId, oldStatus := some order.status,
             newStatus := st, details := details }] ∧
      ∃ o, (updateOrderStatus db orderId st details ef).1 = some o ∧
        o.status = st) := by
  constructor
  · exact (storeInv_runOps ops).2.2.2
  · intro db orderId st details ef order hfound
    have hupd := updateOrderStatus_found db orderId st details ef order hfound
    refine ⟨hupd.2.1, applyExtraFields { order with status := st } ef,
      hupd.1, ?_⟩
    rw [applyExtraFields_status]

/-- C10 witness: the chain facts hold on a concrete three-operation
trace, and a concrete transition appends its matching entry. -/
theorem history_chain_invariant_witness :
    (∃ e0 rest, historyOf (runOps chainOps) chainOrder.id = e0 :: rest ∧
      e0.oldStatus = none ∧ e0.newStatus = OrderStatus.PENDING ∧
      isChain (historyOf (runOps chainOps) chainOrder.id) = true ∧
      (historyOf (runOps chainOps) chainOrder.id).getLast?.map
        (fun e => e.newStatus) = some chainOrder.status) ∧
    ((updateOrderStatus attemptFixture 0 OrderStatus.DELIVERED none
        {}).2.history =
      attemptFixture.history ++
        [{ orderId := 0, oldStatus := some attemptOrder.status,
           newStatus := OrderStatus.DELIVERED, details := none }] ∧
     ∃ o, (updateOrderStatus attemptFixture 0 OrderStatus.DELIVERED none
        {}).1 = some o ∧ o.status = OrderStatus.DELIVERED) :=
  ⟨(history_chain_invariant chainOps).1 chainOrder (by decide),
   (history_chain_invariant chainOps).2 attemptFixture 0
     OrderStatus.DELIVERED none {} attemptOrder rfl⟩

end SwiftTrack
